import Mathlib

/-!
Verification of the pypanrestv2 Panorama data-model classes
(`Templates`, `TemplateStacks`, `DeviceGroups` in `Panorama.py`).

The Python code manipulates nested dictionaries mirroring the Panorama
REST schema.  We embed Python values as the inductive type `PyVal`
(dicts are ordered association lists, as Python dicts preserve
insertion order and the code relies on that via `next(iter(d))`).
Each method is translated statement by statement; Python exceptions
(`ValueError`, `TypeError`, `AttributeError`, `KeyError`) surface as
`Except String` results, paired with the state at the moment the
exception escapes (Python mutations performed before a raise persist).
-/

set_option autoImplicit false

/-- A Python value as used by the Panorama data model: `None`, booleans,
strings, integers, dicts (ordered association lists) and lists. -/
inductive PyVal where
  | pynone
  | pybool (b : Bool)
  | pystr (s : String)
  | pyint (n : Int)
  | pydict (fields : List (String × PyVal))
  | pylist (items : List PyVal)

abbrev Fields := List (String × PyVal)

namespace PyVal

/-- `isinstance(v, dict)` -/
def isDict : PyVal → Bool
  | pydict _ => true
  | _ => false

/-- `isinstance(v, str)` -/
def isStr : PyVal → Bool
  | pystr _ => true
  | _ => false

/-- Python truthiness (`if v:`). -/
def truthy : PyVal → Bool
  | pynone => false
  | pybool b => b
  | pystr s => !(s == "")
  | pyint n => !(n == 0)
  | pydict fs => !fs.isEmpty
  | pylist l => !l.isEmpty

end PyVal

open PyVal

/-- `d.get(k)`: value of the first binding of `k`, if any. -/
def dget : Fields → String → Option PyVal
  | [], _ => none
  | (k', v) :: rest, k => if k' == k then some v else dget rest k

/-- `d.get(k, default)` -/
def dgetD (fs : Fields) (k : String) (default : PyVal) : PyVal :=
  (dget fs k).getD default

/-- `k in d` -/
def hasKey (fs : Fields) (k : String) : Bool :=
  (dget fs k).isSome

/-- `d[k] = v`: replace the binding of `k` in place, else append it. -/
def dset : Fields → String → PyVal → Fields
  | [], k, v => [(k, v)]
  | (k', v') :: rest, k, v =>
      if k' == k then (k, v) :: rest else (k', v') :: dset rest k v

/-- `v == name` for a Python string `name` (Python `==` is `False`
between a string and any non-string value). -/
def isStrVal (v : PyVal) (s : String) : Bool :=
  match v with
  | .pystr t => t == s
  | _ => false

/-- Python membership of the string `s` in a list (`s in l`). -/
def listContainsStr (l : List PyVal) (s : String) : Bool :=
  l.any (fun v => isStrVal v s)

/-- Iterating a Python value with `for`: lists yield their items,
strings yield their characters (as 1-character strings), dicts yield
their keys; other values raise `TypeError`. -/
def iterList : PyVal → Except String (List PyVal)
  | .pylist l => .ok l
  | .pystr s => .ok (s.toList.map (fun c => .pystr c.toString))
  | .pydict fs => .ok (fs.map (fun p => PyVal.pystr p.1))
  | _ => .error "TypeError: object is not iterable"

/-! ### Basic dictionary lemmas -/

theorem dget_dset_self (fs : Fields) (k : String) (v : PyVal) :
    dget (dset fs k v) k = some v := by
  induction fs with
  | nil => simp [dset, dget]
  | cons p rest ih =>
    obtain ⟨k', v'⟩ := p
    by_cases h : k' == k
    · simp [dset, h, dget]
    · simp [dset, h, dget, ih]

theorem dget_dset_ne (fs : Fields) (k k' : String) (v : PyVal) (h : (k == k') = false) :
    dget (dset fs k v) k' = dget fs k' := by
  induction fs with
  | nil => simp [dset, dget, h]
  | cons p rest ih =>
    obtain ⟨a, b⟩ := p
    by_cases ha : a == k
    · have hak : a = k := by simpa using ha
      subst hak
      simp [dset, dget, h]
    · simp [dset, ha, dget, ih]

theorem hasKey_dset_self (fs : Fields) (k : String) (v : PyVal) :
    hasKey (dset fs k v) k = true := by
  simp [hasKey, dget_dset_self]

/-- Writing back the value a key already has leaves the dict unchanged. -/
theorem dset_same (fs : Fields) (k : String) (v : PyVal) (h : dget fs k = some v) :
    dset fs k v = fs := by
  induction fs with
  | nil => simp [dget] at h
  | cons p rest ih =>
    obtain ⟨a, b⟩ := p
    by_cases ha : a == k
    · have hak : a = k := by simpa using ha
      subst hak
      simp [dget] at h
      simp [dset, h]
    · simp [dget, ha] at h
      simp [dset, ha, ih h]

theorem dget_isSome_ne_nil (fs : Fields) (k : String) (v : PyVal)
    (h : dget fs k = some v) : fs ≠ [] := by
  intro hnil; subst hnil; simp [dget] at h

/-! ### The fixed list of allowed variable types -/

/-- `TemplateStacks.variable_types` -/
def variable_types : List String :=
  ["ip-netmask", "ip-range", "hostname", "ipv4-subnet", "ipv6-subnet", "pre-shared-key",
   "fqdn", "group-id", "device-priority", "device-id", "interface",
   "as-number", "qos-profile", "egress-max", "link-tag"]

/-! ### `TemplateStacks.validate_variable_structure` -/

/-- `if entry_list in (None, ''): entry_list = []` — the normalization
both validators apply to an `entry` value before inspecting it. -/
def normEmpty (v : PyVal) : PyVal :=
  match v with
  | .pynone => .pylist []
  | .pystr "" => .pylist []
  | v => v

theorem normEmpty_str_of_ne (st : String) (hst : st ≠ "") :
    normEmpty (.pystr st) = .pystr st := by
  unfold normEmpty
  split
  · rename_i heq; exact PyVal.noConfusion heq
  · rename_i heq
    injection heq with h
    exact absurd h hst
  · rfl

/-- The per-item check of the `for item in entry_list` loop of
`validate_variable_structure`. -/
def validVarItem (item : PyVal) : Bool :=
  match item with
  | .pydict fs =>
    if !(hasKey fs "@name") || !(hasKey fs "type") then false
    else
      match dget fs "type" with
      | some (.pydict tfs) =>
        if !(tfs.length == 1) then false
        else
          match tfs with
          | (type_key, type_val) :: _ =>
            if !(variable_types.contains type_key) then false
            else if type_key == "pre-shared-key" then
              match type_val with
              | .pydict pfs =>
                (hasKey pfs "key" || hasKey pfs "value")
                && (match dget pfs "key" with
                    | some w => w.isStr
                    | none => true)
                && (match dget pfs "value" with
                    | some w => w.isStr
                    | none => true)
              | _ => false
            else type_val.isStr
          | [] => false
      | _ => false
  | _ => false

/-- `TemplateStacks.validate_variable_structure` -/
def validate_variable_structure (variableArg : PyVal) : Bool :=
  match variableArg with
  | .pydict fs =>
    let entry_list := dgetD fs "entry" (.pylist [])
    match normEmpty entry_list with
    | .pylist l => if l.isEmpty then true else l.all validVarItem
    | _ => false
  | _ => false

/-! ### `TemplateStacks.validate_devices_structure` -/

/-- The per-item check of the `for item in devices['entry']` loop of
`validate_devices_structure`. -/
def validDeviceItem (item : PyVal) : Bool :=
  match item with
  | .pydict fs =>
    if !(hasKey fs "@name") then false
    else
      match dget fs "variable" with
      | none => true
      | some (.pydict vfs) =>
        let entry_list := dgetD vfs "entry" (.pylist [])
        if (normEmpty entry_list).truthy then validate_variable_structure (.pydict vfs)
        else true
      | some _ => false
  | _ => false

/-- `TemplateStacks.validate_devices_structure` -/
def validate_devices_structure (devices : PyVal) : Bool :=
  match devices with
  | .pydict fs =>
    match dget fs "entry" with
    | some (.pylist l) => l.all validDeviceItem
    | some _ => false
    | none => false
  | _ => false

/-- `TemplateStacks.validate_templates_structure` -/
def validate_templates_structure (templates : PyVal) : Bool :=
  match templates with
  | .pydict fs =>
    match dget fs "member" with
    | some (.pylist _) => true
    | _ => false
  | _ => false

/-! ### The `TemplateStacks` object state

`self.entry` holds the serialized form; in Python `self.entry['devices']`
usually holds a reference to the same dict object as `self.devices`.  We
model `entry` as the dictionary value recorded at each explicit
`self.entry[...] = ...` assignment in the source; the claims under
verification only inspect `devices` and `variable`. -/

structure TS where
  name : String
  templates : PyVal
  devices : PyVal
  varBlock : PyVal  -- `self.variable` (`variable` is a Lean keyword)
  entry : Fields

/-- `TemplateStacks._ensure_devices_container`.  The assignment
`self.devices = {'entry': []}` goes through the `devices` property
setter, which validates (trivially true for this literal) and also
stores the value under `self.entry['devices']`. -/
def ensureDevicesContainer (s : TS) : TS :=
  let s :=
    if !(s.devices.isDict && (match s.devices with
          | .pydict fs => hasKey fs "entry"
          | _ => false)) then
      let e : PyVal := .pydict [("entry", .pylist [])]
      { s with devices := e, entry := dset s.entry "devices" e }
    else s
  if hasKey s.entry "devices" then s
  else { s with entry := dset s.entry "devices" s.devices }

/-- `TemplateStacks._ensure_device_variables_container`, acting on the
fields of one device entry. -/
def ensureDeviceVariablesContainer (fs : Fields) : Fields :=
  match dget fs "variable" with
  | some (.pydict vfs) =>
    match dget vfs "entry" with
    | some (.pylist _) => fs
    | _ => dset fs "variable" (.pydict (dset vfs "entry" (.pylist [])))
  | _ => dset fs "variable" (.pydict [("entry", .pylist [])])

/-- `TemplateStacks.add_device`.  Returns the state paired with the
result (`Bool`) or the escaping exception. -/
def add_device (s : TS) (name : String) (variablesArg : Option PyVal) :
    TS × Except String Bool :=
  let s := ensureDevicesContainer s
  let device_entry : Option PyVal :=
    match variablesArg with
    | some vars =>
      if !(validate_variable_structure vars) then none
      else some (.pydict [("@name", .pystr name), ("variable", vars)])
    | none => some (.pydict [("@name", .pystr name)])
  match device_entry with
  | none => (s, .ok false)  -- invalid variable structure: logged, not added
  | some de =>
    -- `self.devices['entry'].append(device_entry)`
    match s.devices with
    | .pydict dfs =>
      match dget dfs "entry" with
      | some (.pylist l) =>
        let devices' : PyVal := .pydict (dset dfs "entry" (.pylist (l ++ [de])))
        ({ s with devices := devices', entry := dset s.entry "devices" devices' }, .ok true)
      | some _ => (s, .error "AttributeError: devices entry does not support append")
      | none => (s, .error "KeyError: entry")  -- unreachable after _ensure_devices_container
    | _ => (s, .error "AttributeError: devices is not a dict")  -- unreachable after _ensure

/-- The `for idx, device_entry in enumerate(self.devices['entry'])` loop
of `remove_device`: delete the first entry whose `@name` equals `name`.
A non-dict element raises `AttributeError` at `device_entry.get`. -/
def removeFirstDevice (name : String) : List PyVal → Except String (Option (List PyVal))
  | [] => .ok none
  | d :: rest =>
    match d with
    | .pydict fs =>
      if isStrVal (dgetD fs "@name" .pynone) name then .ok (some rest)
      else
        match removeFirstDevice name rest with
        | .ok none => .ok none
        | .ok (some rest') => .ok (some (.pydict fs :: rest'))
        | .error e => .error e
    | _ => .error "AttributeError: device entry is not a dict"

/-- `TemplateStacks.remove_device` -/
def remove_device (s : TS) (name : String) : TS × Except String Bool :=
  let s := ensureDevicesContainer s
  match s.devices with
  | .pydict dfs =>
    match dget dfs "entry" with
    | some (.pylist l) =>
      match removeFirstDevice name l with
      | .ok none => (s, .ok false)
      | .ok (some l') =>
        let devices' : PyVal := .pydict (dset dfs "entry" (.pylist l'))
        ({ s with devices := devices', entry := dset s.entry "devices" devices' }, .ok true)
      | .error e => (s, .error e)
    | some (.pystr "") => (s, .ok false)   -- enumerating an empty string yields nothing
    | some (.pydict []) => (s, .ok false)  -- enumerating an empty dict yields nothing
    | some _ => (s, .error "TypeError: devices entry is not enumerable as dict entries")
    | none => (s, .error "KeyError: entry")  -- unreachable after _ensure
  | _ => (s, .error "AttributeError: devices is not a dict")  -- unreachable after _ensure

/-- `TemplateStacks.update_variable` (the Python annotation types
`variable_value` as `str`). -/
def update_variable (s : TS) (name variable_type variable_value : String) :
    TS × Except String Unit :=
  if variable_types.contains variable_type then
    let variable_entry : PyVal :=
      .pydict [("@name", .pystr name), ("type", .pydict [(variable_type, .pystr variable_value)])]
    -- `self.variable['entry'].append(variable_entry)`
    match s.varBlock with
    | .pydict fs =>
      match dget fs "entry" with
      | some (.pylist l) =>
        let v : PyVal := .pydict (dset fs "entry" (.pylist (l ++ [variable_entry])))
        ({ s with varBlock := v, entry := dset s.entry "variable" v }, .ok ())
      | some _ => (s, .error "AttributeError: variable entry does not support append")
      | none => (s, .error "KeyError: entry")
    | _ => (s, .error "TypeError: variable is not subscriptable")
  else (s, .ok ())

/-! ### `TemplateStacks.update_device_variable` -/

/-- The inner `for var_entry in device_entry...['entry']` loop of
`update_device_variable`: update the first variable entry whose
`@name` matches.  Returns the (possibly updated) list and `.ok true`
when found, `.ok false` when the loop completes without a match, or
the escaping exception (the list then holds the mutations made so
far). -/
def updateVarInEntries (variable_name variable_type : String) (normalized_value : PyVal) :
    List PyVal → List PyVal × Except String Bool
  | [] => ([], .ok false)
  | v :: rest =>
    match v with
    | .pydict fs =>
      if isStrVal (dgetD fs "@name" .pynone) variable_name then
        if variable_type == "pre-shared-key" && !(normalized_value.isDict) then
          (.pydict fs :: rest,
           .error "ValueError: pre-shared-key variable_value must be a dict with key or value.")
        else
          (.pydict (dset fs "type" (.pydict [(variable_type, normalized_value)])) :: rest,
           .ok true)
      else
        let r := updateVarInEntries variable_name variable_type normalized_value rest
        (.pydict fs :: r.1, r.2)
    | _ => (v :: rest, .error "AttributeError: variable entry is not a dict")

/-- The body of `update_device_variable` run on one matched device
entry (the branch after `device_entry.get('@name') != device_name`
fails): normalize the variable container, try to update an existing
entry, else append a new one.  After
`_ensure_device_variables_container` the `variable` block is always a
dict with a list under `entry`, so the re-checks in the not-found
branch of the Python code cannot fire. -/
def updateMatchedDevice (variable_name variable_type : String) (normalized_value : PyVal)
    (fs : Fields) : Fields × Except String Bool :=
  let fs1 := ensureDeviceVariablesContainer fs
  match dget fs1 "variable" with
  | some (.pydict vfs) =>
    match dget vfs "entry" with
    | some (.pylist l) =>
      let r := updateVarInEntries variable_name variable_type normalized_value l
      let withEntries : List PyVal → Fields := fun l' =>
        dset fs1 "variable" (.pydict (dset vfs "entry" (.pylist l')))
      match r.2 with
      | .error e => (withEntries r.1, .error e)
      | .ok true => (withEntries r.1, .ok true)
      | .ok false =>
        if variable_type == "pre-shared-key" && !(normalized_value.isDict) then
          (withEntries r.1,
           .error "ValueError: pre-shared-key variable_value must be a dict with key or value.")
        else
          let payload : PyVal := .pydict [(variable_type, normalized_value)]
          (withEntries (r.1 ++ [.pydict [("@name", .pystr variable_name), ("type", payload)]]),
           .ok true)
    | _ => (fs1, .error "unreachable: ensured entry is a list")
  | _ => (fs1, .error "unreachable: ensured variable is a dict")

/-- The outer `for device_entry in self.devices['entry']` loop of
`update_device_variable`: process the first device whose `@name`
matches, then break.  `.ok true` means a device was matched and
processed; `.ok false` means the loop completed without a match. -/
def updateDeviceInList (device_name variable_name variable_type : String)
    (normalized_value : PyVal) : List PyVal → List PyVal × Except String Bool
  | [] => ([], .ok false)
  | d :: rest =>
    match d with
    | .pydict fs =>
      if !(isStrVal (dgetD fs "@name" .pynone) device_name) then
        let r := updateDeviceInList device_name variable_name variable_type normalized_value rest
        (.pydict fs :: r.1, r.2)
      else
        let r := updateMatchedDevice variable_name variable_type normalized_value fs
        (.pydict r.1 :: rest, r.2)
    | _ => (d :: rest, .error "AttributeError: device entry is not a dict")

/-- `TemplateStacks.update_device_variable` -/
def update_device_variable (s : TS) (device_name variable_name variable_type : String)
    (variable_value : PyVal) : TS × Except String Unit :=
  if !(variable_types.contains variable_type) then (s, .ok ())
  else
    let s := ensureDevicesContainer s
    match s.devices with
    | .pydict dfs =>
      match dget dfs "entry" with
      | some (.pylist l) =>
        -- `normalized_value` (computed inside the loop in Python, but it
        -- only depends on the arguments)
        let normalized_value :=
          if variable_type == "pre-shared-key" && variable_value.isStr then
            PyVal.pydict [("value", variable_value)]
          else variable_value
        let r := updateDeviceInList device_name variable_name variable_type normalized_value l
        let devices' : PyVal := .pydict (dset dfs "entry" (.pylist r.1))
        match r.2 with
        | .ok true =>
          -- `self.entry['devices'] = self.devices; break`
          ({ s with devices := devices', entry := dset s.entry "devices" devices' }, .ok ())
        | .ok false => ({ s with devices := devices' }, .ok ())
        | .error e => ({ s with devices := devices' }, .error e)
      | some (.pystr "") => (s, .ok ())   -- iterating an empty string: loop body never runs
      | some (.pydict []) => (s, .ok ())
      | some _ => (s, .error "TypeError: devices entry is not iterable as device entries")
      | none => (s, .error "KeyError: entry")  -- unreachable after _ensure
    | _ => (s, .error "AttributeError: devices is not a dict")  -- unreachable after _ensure

/-! ### `TemplateStacks._infer_variable_type` -/

/-- One pass of the variable-entry scan used by
`_infer_variable_type` (identical for the stack-level block and for a
device-level block): return the first type-tag of the first entry
whose `@name` matches and whose `type` is a non-empty dict. -/
def scanVarEntries (variable_name : String) : List PyVal → Except String (Option String)
  | [] => .ok none
  | v :: rest =>
    match v with
    | .pydict fs =>
      if isStrVal (dgetD fs "@name" .pynone) variable_name then
        match dget fs "type" with
        | some (.pydict ((k, _) :: _)) => .ok (some k)
        | _ => scanVarEntries variable_name rest
      else scanVarEntries variable_name rest
    | _ => .error "AttributeError: variable entry has no get method"

/-- The device-level fallback loop of `_infer_variable_type`.  Non-dict
devices and non-dict `variable` blocks are skipped (`continue`). -/
def scanDevicesForType (variable_name : String) : List PyVal → Except String (Option String)
  | [] => .ok none
  | d :: rest =>
    match d with
    | .pydict dfs =>
      match dget dfs "variable" with
      | some (.pydict vfs) =>
        match iterList (dgetD vfs "entry" (.pylist [])) with
        | .error e => .error e
        | .ok entries =>
          match scanVarEntries variable_name entries with
          | .error e => .error e
          | .ok (some k) => .ok (some k)
          | .ok none => scanDevicesForType variable_name rest
      | _ => scanDevicesForType variable_name rest
    | _ => scanDevicesForType variable_name rest

/-- `TemplateStacks._infer_variable_type` -/
def inferVariableType (s : TS) (variable_name : String) : Except String (Option String) :=
  -- 1) stack-level definitions
  let stackScan : Except String (Option String) :=
    match s.varBlock with
    | .pydict fs =>
      if (PyVal.pydict fs).truthy && hasKey fs "entry" then
        match iterList (dgetD fs "entry" (.pylist [])) with
        | .error e => .error e
        | .ok entries => scanVarEntries variable_name entries
      else .ok none
    | _ => .ok none  -- `self.variable and isinstance(self.variable, dict)` fails
  match stackScan with
  | .error e => .error e
  | .ok (some k) => .ok (some k)
  | .ok none =>
    -- 2) fallback: variables of existing devices
    match s.devices with
    | .pydict fs =>
      if (PyVal.pydict fs).truthy then
        match iterList (dgetD fs "entry" (.pylist [])) with
        | .error e => .error e
        | .ok devs => scanDevicesForType variable_name devs
      else .ok none
    | _ => .ok none

/-! ### `TemplateStacks.set_device_variable_value` -/

/-- `isinstance(d, dict) and d.get('@name') == name` for a device
entry. -/
def isDeviceNamed (d : PyVal) (name : String) : Bool :=
  match d with
  | .pydict fs => isStrVal (dgetD fs "@name" .pynone) name
  | _ => false

/-- The `device_exists` generator expression of
`set_device_variable_value`:
`any(isinstance(d, dict) and d.get('@name') == device_serial
     for d in self.devices.get('entry', []))`. -/
def deviceExistsChk (devices : PyVal) (device_serial : String) : Except String Bool :=
  match devices with
  | .pydict fs =>
    match iterList (dgetD fs "entry" (.pylist [])) with
    | .error e => .error e
    | .ok l => .ok (l.any (fun d => isDeviceNamed d device_serial))
  | _ => .error "AttributeError: devices has no get method"

/-- `TemplateStacks.set_device_variable_value` -/
def set_device_variable_value (s : TS) (device_serial variable_name : String)
    (value : PyVal) (create_device_if_missing : Bool := true) : TS × Except String Unit :=
  match inferVariableType s variable_name with
  | .error e => (s, .error e)
  | .ok var_type_key =>
    -- `if not var_type_key:` (falsy for None and for the empty string)
    match var_type_key with
    | none =>
      (s, .error ("ValueError: Variable definition " ++ variable_name ++
        " not found for template stack " ++ s.name ++
        "; define it at the stack level or ensure another device has it assigned."))
    | some t =>
      if t == "" then
        (s, .error ("ValueError: Variable definition " ++ variable_name ++
          " not found for template stack " ++ s.name ++
          "; define it at the stack level or ensure another device has it assigned."))
      else
        match deviceExistsChk s.devices device_serial with
        | .error e => (s, .error e)
        | .ok device_exists =>
          let addStep : TS × Except String Unit :=
            if !device_exists && create_device_if_missing then
              let r := add_device s device_serial none
              (r.1, match r.2 with
                    | .ok _ => .ok ()   -- the Bool result is ignored by the caller
                    | .error e => .error e)
            else (s, .ok ())
          match addStep.2 with
          | .error e => (addStep.1, .error e)
          | .ok _ =>
            let prepared_value :=
              if t == "pre-shared-key" && value.isStr then
                PyVal.pydict [("value", value)]
              else value
            update_device_variable addStep.1 device_serial variable_name t prepared_value

/-! ### `TemplateStacks.remove_device_variable` -/

/-- The inner `for idx, var_entry in enumerate(...)` loop of
`remove_device_variable`: delete the first variable entry whose
`@name` matches. -/
def removeFirstVar (variable_name : String) : List PyVal → Except String (Option (List PyVal))
  | [] => .ok none
  | v :: rest =>
    match v with
    | .pydict fs =>
      if isStrVal (dgetD fs "@name" .pynone) variable_name then .ok (some rest)
      else
        match removeFirstVar variable_name rest with
        | .ok none => .ok none
        | .ok (some rest') => .ok (some (.pydict fs :: rest'))
        | .error e => .error e
    | _ => .error "AttributeError: variable entry is not a dict"

/-- The body of `remove_device_variable` run on one matched device
entry.  Unlike `update_device_variable`, the variable container is NOT
normalized here: the code checks
`if 'variable' not in device_entry or 'entry' not in device_entry['variable']`
and returns `False` — and that check itself raises when
`device_entry['variable']` is a value that does not support `in`
(e.g. `None`). -/
def removeVarFromMatchedDevice (variable_name : String) (fs : Fields) :
    Fields × Except String Bool :=
  match dget fs "variable" with
  | none => (fs, .ok false)
  | some (.pydict vfs) =>
    match dget vfs "entry" with
    | none => (fs, .ok false)
    | some (.pylist vl) =>
      match removeFirstVar variable_name vl with
      | .ok none => (fs, .ok false)
      | .ok (some vl') =>
        (dset fs "variable" (.pydict (dset vfs "entry" (.pylist vl'))), .ok true)
      | .error e => (fs, .error e)
    | some (.pystr "") => (fs, .ok false)   -- enumerating an empty string yields nothing
    | some (.pydict []) => (fs, .ok false)  -- enumerating an empty dict yields nothing
    | some _ => (fs, .error "TypeError: cannot enumerate variable entry value")
  | some (.pylist ms) =>
    -- `'entry' not in <list>` is a membership test
    if listContainsStr ms "entry" then
      (fs, .error "TypeError: list indices must be integers")  -- `<list>['entry']`
    else (fs, .ok false)
  | some (.pystr t) =>
    -- `'entry' not in <str>` is a substring test
    if 2 ≤ (t.splitOn "entry").length then
      (fs, .error "TypeError: string indices must be integers")  -- `<str>['entry']`
    else (fs, .ok false)
  | some _ =>
    -- `'entry' not in None` (or an int/bool): TypeError from `in` itself
    (fs, .error "TypeError: argument is not a container")

/-- The outer device loop of `remove_device_variable`: find the first
device whose `@name` matches and process it (the function returns from
inside the loop in every matched case). -/
def removeVarFromDevices (device_name variable_name : String) :
    List PyVal → List PyVal × Except String Bool
  | [] => ([], .ok false)
  | d :: rest =>
    match d with
    | .pydict fs =>
      if !(isStrVal (dgetD fs "@name" .pynone) device_name) then
        let r := removeVarFromDevices device_name variable_name rest
        (.pydict fs :: r.1, r.2)
      else
        let r := removeVarFromMatchedDevice variable_name fs
        (.pydict r.1 :: rest, r.2)
    | _ => (d :: rest, .error "AttributeError: device entry is not a dict")

/-- `TemplateStacks.remove_device_variable` -/
def remove_device_variable (s : TS) (device_name variable_name : String) :
    TS × Except String Bool :=
  let s := ensureDevicesContainer s
  match s.devices with
  | .pydict dfs =>
    match dget dfs "entry" with
    | some (.pylist l) =>
      let r := removeVarFromDevices device_name variable_name l
      let devices' : PyVal := .pydict (dset dfs "entry" (.pylist r.1))
      match r.2 with
      | .ok true =>
        ({ s with devices := devices', entry := dset s.entry "devices" devices' }, .ok true)
      | .ok false => ({ s with devices := devices' }, .ok false)
      | .error e => ({ s with devices := devices' }, .error e)
    | some (.pystr "") => (s, .ok false)
    | some (.pydict []) => (s, .ok false)
    | some _ => (s, .error "TypeError: devices entry is not iterable as device entries")
    | none => (s, .error "KeyError: entry")  -- unreachable after _ensure
  | _ => (s, .error "AttributeError: devices is not a dict")  -- unreachable after _ensure

/-! ### `Templates.settings` property setter -/

/-- The `Templates` object state: the `_settings` backing field and the
serialized `entry` dict. -/
structure TemplatesState where
  settings : PyVal
  entry : Fields

/-- `str.startswith(p)` (spelled out over character lists so that it
evaluates by `decide`). -/
def pyStartsWith (s p : String) : Bool := p.toList.isPrefixOf s.toList

/-- The `Templates.settings` property setter.  Note the control flow of
the Python code: a dict that does not contain `'default-vsys'` falls
through the `if isinstance(value, dict)` branch without reaching the
`else` clause, so the method returns silently without assigning or
raising. -/
def settings_set (s : TemplatesState) (value : PyVal) : TemplatesState × Except String Unit :=
  match value with
  | .pydict fs =>
    if hasKey fs "default-vsys" then
      ({ settings := value, entry := dset s.entry "settings" value }, .ok ())
    else
      (s, .ok ())  -- silent fall-through: no branch of the if/elif/else runs to completion
  | .pystr v =>
    if !(pyStartsWith v "vsys") then
      (s, .error "ValueError: The attribute settings must be a vsys.")
    else
      let d : PyVal := .pydict [("default-vsys", .pystr v)]
      ({ settings := d, entry := dset s.entry "settings" d }, .ok ())
  | _ => (s, .error "TypeError: The attribute settings must be of type str.")

/-! ### `DeviceGroups.add_reference_template` -/

/-- `DeviceGroups.add_reference_template`, acting on the `self.entry`
dict (the only state it touches). -/
def add_reference_template (entry : Fields) (template_name : PyVal) :
    Fields × Except String Unit :=
  match template_name with
  | .pystr s =>
    if s == "" then (entry, .error "ValueError: template_name cannot be empty.")
    else
      let entry :=
        if !(hasKey entry "reference-templates") then
          dset entry "reference-templates" (.pydict [("member", .pylist [])])
        else entry
      match dget entry "reference-templates" with
      | some (.pydict rfs) =>
        match dget rfs "member" with
        | some (.pylist mem) =>
          if listContainsStr mem s then
            (entry, .ok ())  -- duplicate: logged as a warning, not appended
          else
            (dset entry "reference-templates"
               (.pydict (dset rfs "member" (.pylist (mem ++ [.pystr s])))), .ok ())
        | some (.pystr t) =>
          -- `template_name not in <str>` is a substring test; appending then fails
          if 2 ≤ (t.splitOn s).length then (entry, .ok ())
          else (entry, .error "AttributeError: str object has no attribute append")
        | some (.pydict mfs) =>
          -- `template_name not in <dict>` is a key test; appending then fails
          if hasKey mfs s then (entry, .ok ())
          else (entry, .error "AttributeError: dict object has no attribute append")
        | some _ => (entry, .error "TypeError: argument is not a container")
        | none => (entry, .error "KeyError: member")
      | some _ => (entry, .error "TypeError: value is not subscriptable")
      | none => (entry, .error "KeyError: reference-templates")  -- unreachable
  | _ => (entry, .error "TypeError: template_name must be a string.")

/-! ### General helper lemmas -/

theorem all_eq_false_of_mem {α : Type} (l : List α) (p : α → Bool) (x : α)
    (hx : x ∈ l) (hp : p x = false) : l.all p = false := by
  rw [← Bool.not_eq_true, List.all_eq_true]
  intro h
  have hx' := h x hx
  rw [hp] at hx'
  exact Bool.false_ne_true hx'

theorem filter_eq_nil_of_any_false {α : Type} (l : List α) (p : α → Bool)
    (h : l.any p = false) : l.filter p = [] := by
  rw [List.filter_eq_nil_iff]
  intro a ha
  rw [← Bool.not_eq_true, List.any_eq_true] at h
  intro hpa
  exact h ⟨a, ha, hpa⟩

theorem ne_nil_of_mem {α : Type} {l : List α} {x : α} (hx : x ∈ l) : l ≠ [] := by
  intro h; subst h; simp at hx

/-! ### C3: `validate_variable_structure` acceptance and rejection -/

/-- C3: `validate_variable_structure` returns `True` on `{'entry': []}`,
and returns `False` on any input whose entry list contains an item that
is missing the `@name` key, is missing the `type` key, or whose `type`
value is a dict with a number of keys different from one. -/
theorem C3_validate_variable_structure (fs : Fields) (l : List PyVal) (item : PyVal) (ifs : Fields)
    (hentry : dget fs "entry" = some (.pylist l))
    (hmem : item ∈ l)
    (hitem : item = .pydict ifs)
    (hbad : hasKey ifs "@name" = false ∨ hasKey ifs "type" = false ∨
      ∃ tfs, dget ifs "type" = some (.pydict tfs) ∧ tfs.length ≠ 1) :
    validate_variable_structure (.pydict [("entry", .pylist [])]) = true ∧
    validate_variable_structure (.pydict fs) = false := by
  constructor
  · rfl
  · have hitemfalse : validVarItem item = false := by
      subst hitem
      rcases hbad with h | h | ⟨tfs, htfs, hlen⟩
      · simp [validVarItem, h]
      · simp [validVarItem, h]
      · by_cases h1 : hasKey ifs "@name"
        · by_cases h2 : hasKey ifs "type"
          · have : (tfs.length == 1) = false := by
              simpa using hlen
            simp [validVarItem, h1, h2, htfs, this]
          · simp [validVarItem, h2]
        · simp [validVarItem, h1]
    have hne : l ≠ [] := ne_nil_of_mem hmem
    have hall : l.all validVarItem = false := all_eq_false_of_mem l validVarItem item hmem hitemfalse
    simp only [validate_variable_structure, dgetD, hentry, Option.getD_some]
    simp [normEmpty, List.isEmpty_eq_false_iff_exists_mem.mpr ⟨item, hmem⟩, hne, hall]

/-- C3 witness: a concrete malformed input (an entry missing `type`). -/
theorem C3_validate_variable_structure_witness :
    validate_variable_structure (.pydict [("entry", .pylist [])]) = true ∧
    validate_variable_structure
      (.pydict [("entry", .pylist [.pydict [("@name", .pystr "v")]])]) = false :=
  C3_validate_variable_structure
    [("entry", .pylist [.pydict [("@name", .pystr "v")]])]
    [.pydict [("@name", .pystr "v")]]
    (.pydict [("@name", .pystr "v")])
    [("@name", .pystr "v")]
    rfl (List.mem_singleton.mpr rfl) rfl
    (Or.inr (Or.inl rfl))

/-! ### C4: type-tag value constraints enforced by
`validate_variable_structure` -/

/-- C4: for every variable entry checked by
`validate_variable_structure`: if its single type-tag is
`pre-shared-key`, validation passes only when the value under that tag
is a dict containing at least one of the keys `key` or `value`, every
present `key`/`value` field being a string; for every other allowed
type-tag, validation passes only when the value under the tag is a
string. -/
theorem C4_type_tag_value_constraints (fs : Fields) (l : List PyVal)
    (item : PyVal) (ifs tfs : Fields)
    (hvalid : validate_variable_structure (.pydict fs) = true)
    (hentry : dget fs "entry" = some (.pylist l))
    (hmem : item ∈ l)
    (hitem : item = .pydict ifs)
    (htype : dget ifs "type" = some (.pydict tfs)) :
    ∃ k tv, tfs = [(k, tv)] ∧ variable_types.contains k = true ∧
      (k = "pre-shared-key" →
        ∃ pfs, tv = .pydict pfs ∧
          (hasKey pfs "key" = true ∨ hasKey pfs "value" = true) ∧
          (∀ w, dget pfs "key" = some w → w.isStr = true) ∧
          (∀ w, dget pfs "value" = some w → w.isStr = true)) ∧
      (k ≠ "pre-shared-key" → tv.isStr = true) := by
  have hne : l ≠ [] := ne_nil_of_mem hmem
  have hall : l.all validVarItem = true := by
    simp only [validate_variable_structure, dgetD, hentry, Option.getD_some] at hvalid
    simpa [normEmpty, List.isEmpty_eq_false_iff_exists_mem.mpr ⟨item, hmem⟩] using hvalid
  have hv : validVarItem item = true := (List.all_eq_true.mp hall) item hmem
  subst hitem
  by_cases h1 : hasKey ifs "@name"
  · by_cases h2 : hasKey ifs "type"
    · simp only [validVarItem, h1, h2, htype, Bool.not_true, Bool.or_self, if_false,
        Bool.false_or] at hv
      by_cases hlen : tfs.length = 1
      · obtain ⟨p, hp⟩ := List.length_eq_one.mp hlen
        obtain ⟨k, tv⟩ := p
        subst hp
        refine ⟨k, tv, rfl, ?_⟩
        simp only [List.length_cons, List.length_nil] at hv
        by_cases hcontains : variable_types.contains k
        · simp only [hcontains, Bool.not_true, if_false] at hv
          by_cases hpsk : k = "pre-shared-key"
          · subst hpsk
            simp only [beq_self_eq_true, if_true] at hv
            refine ⟨hcontains, ?_, ?_⟩
            · intro _
              match tv, hv with
              | .pydict pfs, hv =>
                refine ⟨pfs, rfl, ?_, ?_, ?_⟩
                · rcases Bool.and_elim_left (Bool.and_elim_left hv) |>.symm with h
                  rcases Bool.or_eq_true_iff.mp h.symm with h' | h'
                  · exact Or.inl h'
                  · exact Or.inr h'
                · intro w hw
                  have := Bool.and_elim_right (Bool.and_elim_left hv)
                  simpa [hw] using this
                · intro w hw
                  have := Bool.and_elim_right hv
                  simpa [hw] using this
            · intro hne'; exact absurd rfl hne'
          · have hkb : (k == "pre-shared-key") = false := by
              simpa using hpsk
            simp only [hkb, if_false] at hv
            exact ⟨hcontains, fun h => absurd h hpsk, fun _ => hv⟩
        · simp [hcontains] at hv
          exact absurd hv.1 (by simpa using hcontains)
      · have : (tfs.length == 1) = false := by simpa using hlen
        simp [this] at hv
    · simp [validVarItem, h2] at hv
  · simp [validVarItem, h1] at hv

/-- C4 witness: a concrete valid structure holding a `pre-shared-key`
entry. -/
theorem C4_type_tag_value_constraints_witness :
    ∃ k tv, [("pre-shared-key", PyVal.pydict [("value", PyVal.pystr "secret")])] = [(k, tv)] ∧
      variable_types.contains k = true ∧
      (k = "pre-shared-key" →
        ∃ pfs, tv = .pydict pfs ∧
          (hasKey pfs "key" = true ∨ hasKey pfs "value" = true) ∧
          (∀ w, dget pfs "key" = some w → w.isStr = true) ∧
          (∀ w, dget pfs "value" = some w → w.isStr = true)) ∧
      (k ≠ "pre-shared-key" → tv.isStr = true) :=
  C4_type_tag_value_constraints
    [("entry", .pylist [.pydict [("@name", .pystr "$psk"),
       ("type", .pydict [("pre-shared-key", .pydict [("value", .pystr "secret")])])]])]
    [.pydict [("@name", .pystr "$psk"),
       ("type", .pydict [("pre-shared-key", .pydict [("value", .pystr "secret")])])]]
    (.pydict [("@name", .pystr "$psk"),
       ("type", .pydict [("pre-shared-key", .pydict [("value", .pystr "secret")])])])
    [("@name", .pystr "$psk"),
       ("type", .pydict [("pre-shared-key", .pydict [("value", .pystr "secret")])])]
    [("pre-shared-key", .pydict [("value", .pystr "secret")])]
    (by decide) rfl (List.mem_singleton.mpr rfl) rfl rfl

/-! ### C5: the `Templates.settings` setter -/

/-- C5 counterexample: assigning a dict that does not contain
`'default-vsys'` (an invalid settings value) does NOT raise — the
`if isinstance(value, dict)` branch is entered, its inner test fails,
and the `elif`/`else` clauses are skipped, so the setter returns
silently with the state unchanged. -/
theorem C5_counterexample :
    settings_set { settings := .pynone, entry := [] } (.pydict [("foo", .pystr "bar")])
      = ({ settings := .pynone, entry := [] }, .ok ()) := rfl

/-- C5 (amended): a value that is neither a dict nor a string raises
`TypeError`; a string not starting with `"vsys"` raises `ValueError`;
but a dict not containing `'default-vsys'` is silently ignored (no
exception, no assignment), due to the fall-through of the
`if`/`elif`/`else` chain. -/
theorem C5_settings_validation (s : TemplatesState) (v : PyVal) :
    (v.isDict = false → v.isStr = false →
       settings_set s v = (s, .error "TypeError: The attribute settings must be of type str.")) ∧
    (∀ str, v = .pystr str → pyStartsWith str "vsys" = false →
       settings_set s v = (s, .error "ValueError: The attribute settings must be a vsys.")) ∧
    (∀ fs, v = .pydict fs → hasKey fs "default-vsys" = false →
       settings_set s v = (s, .ok ())) := by
  refine ⟨?_, ?_, ?_⟩
  · intro hd hs
    match v, hd, hs with
    | .pynone, _, _ => rfl
    | .pybool b, _, _ => rfl
    | .pyint n, _, _ => rfl
    | .pylist l, _, _ => rfl
  · intro str hv hpre
    subst hv
    simp [settings_set, hpre]
  · intro fs hv hk
    subst hv
    simp [settings_set, hk]

/-- C5 witness: concrete instances of all three amended branches. -/
theorem C5_settings_validation_witness :
    settings_set { settings := .pynone, entry := [] } (.pyint 7)
      = ({ settings := .pynone, entry := [] },
         .error "TypeError: The attribute settings must be of type str.") ∧
    settings_set { settings := .pynone, entry := [] } (.pystr "sys1")
      = ({ settings := .pynone, entry := [] },
         .error "ValueError: The attribute settings must be a vsys.") ∧
    settings_set { settings := .pynone, entry := [] } (.pydict [("x", .pynone)])
      = ({ settings := .pynone, entry := [] }, .ok ()) :=
  ⟨(C5_settings_validation { settings := .pynone, entry := [] } (.pyint 7)).1 rfl rfl,
   (C5_settings_validation { settings := .pynone, entry := [] } (.pystr "sys1")).2.1
     "sys1" rfl (by decide),
   (C5_settings_validation { settings := .pynone, entry := [] }
     (.pydict [("x", .pynone)])).2.2 [("x", .pynone)] rfl rfl⟩

/-! ### C9: disallowed variable types are silent no-ops -/

/-- C9: for every `variable_type` not in the 15-element
`variable_types` list, `update_device_variable` returns normally
without raising and leaves the state entirely unchanged, and
`update_variable` with a disallowed type appends nothing and changes
no state. -/
theorem C9_disallowed_type_noop (s : TS) (device_name variable_name variable_type : String)
    (variable_value : PyVal) (name vval : String)
    (h : variable_types.contains variable_type = false) :
    update_device_variable s device_name variable_name variable_type variable_value
      = (s, .ok ()) ∧
    update_variable s name variable_type vval = (s, .ok ()) := by
  constructor
  · have hcond : (!(variable_types.contains variable_type)) = true := by rw [h]; rfl
    unfold update_device_variable
    rw [if_pos hcond]
  · unfold update_variable
    rw [if_neg (by simpa using h)]

/-- C9 witness at a concrete disallowed type. -/
theorem C9_disallowed_type_noop_witness :
    (update_device_variable
      { name := "stk", templates := .pydict [("member", .pylist [])],
        devices := .pydict [("entry", .pylist [])],
        varBlock := .pydict [("entry", .pylist [])], entry := [] }
      "0123456789" "$v" "bogus-type" (.pystr "x")
      = ({ name := "stk", templates := .pydict [("member", .pylist [])],
           devices := .pydict [("entry", .pylist [])],
           varBlock := .pydict [("entry", .pylist [])], entry := [] }, .ok ())) ∧
    (update_variable
      { name := "stk", templates := .pydict [("member", .pylist [])],
        devices := .pydict [("entry", .pylist [])],
        varBlock := .pydict [("entry", .pylist [])], entry := [] }
      "$v" "bogus-type" "x"
      = ({ name := "stk", templates := .pydict [("member", .pylist [])],
           devices := .pydict [("entry", .pylist [])],
           varBlock := .pydict [("entry", .pylist [])], entry := [] }, .ok ())) :=
  C9_disallowed_type_noop _ "0123456789" "$v" "bogus-type" (.pystr "x") "$v" "x" (by decide)

/-! ### C6: `add_reference_template` is idempotent -/

theorem dset_dset (fs : Fields) (k : String) (v w : PyVal) :
    dset (dset fs k v) k w = dset fs k w := by
  induction fs with
  | nil => simp [dset]
  | cons p rest ih =>
    obtain ⟨a, b⟩ := p
    by_cases ha : a == k
    · simp [dset, ha]
    · simp [dset, ha, ih]

/-- The `entry['reference-templates']['member']` list of a
`DeviceGroups` entry dict, when present. -/
def refTemplateMembers (entry : Fields) : List PyVal :=
  match dget entry "reference-templates" with
  | some (.pydict rfs) =>
    match dget rfs "member" with
    | some (.pylist mem) => mem
    | _ => []
  | _ => []

/-- The number of occurrences of the string `s` in a Python list. -/
def countStr (l : List PyVal) (s : String) : Nat :=
  (l.filter (fun v => isStrVal v s)).length

theorem countStr_eq_zero (l : List PyVal) (s : String)
    (h : listContainsStr l s = false) : countStr l s = 0 := by
  unfold countStr
  rw [filter_eq_nil_of_any_false l _ h]
  rfl

theorem countStr_append (l₁ l₂ : List PyVal) (s : String) :
    countStr (l₁ ++ l₂) s = countStr l₁ s + countStr l₂ s := by
  simp [countStr, List.filter_append]

/-- C6: `DeviceGroups.add_reference_template` is idempotent: for every
non-empty string `template_name` (added to an entry whose
reference-template list, if present, does not contain it yet), adding
it twice succeeds, leaves the second call a no-op, and leaves
`entry['reference-templates']['member']` containing the name exactly
once. -/
theorem C6_add_reference_template_idempotent (entry : Fields) (name : String)
    (hname : name ≠ "")
    (hshape : dget entry "reference-templates" = none ∨
      ∃ rfs mem, dget entry "reference-templates" = some (.pydict rfs) ∧
        dget rfs "member" = some (.pylist mem) ∧ listContainsStr mem name = false) :
    (add_reference_template entry (.pystr name)).2 = .ok () ∧
    (add_reference_template (add_reference_template entry (.pystr name)).1 (.pystr name)).2
      = .ok () ∧
    (add_reference_template (add_reference_template entry (.pystr name)).1 (.pystr name)).1
      = (add_reference_template entry (.pystr name)).1 ∧
    countStr (refTemplateMembers (add_reference_template entry (.pystr name)).1) name = 1 := by
  have hnameb : (name == "") = false := by simpa using hname
  have hself : (name == name) = true := by simp
  rcases hshape with hnone | ⟨rfs, mem, hr, hm, hc⟩
  · have hk : hasKey entry "reference-templates" = false := by
      simp [hasKey, hnone]
    have hstep1 : add_reference_template entry (.pystr name)
        = (dset entry "reference-templates" (.pydict [("member", .pylist [.pystr name])]), .ok ()) := by
      simp only [add_reference_template, hnameb, hk, Bool.not_false, if_true, if_false,
        dget_dset_self, Bool.false_eq_true]
      norm_num [listContainsStr, dget, dset, dset_dset]
    rw [hstep1]
    have hget1 : dget (dset entry "reference-templates"
        (.pydict [("member", .pylist [.pystr name])])) "reference-templates"
        = some (.pydict [("member", .pylist [.pystr name])]) := dget_dset_self ..
    have hk2 : hasKey (dset entry "reference-templates"
        (.pydict [("member", .pylist [.pystr name])])) "reference-templates" = true :=
      hasKey_dset_self ..
    have hstep2 : add_reference_template (dset entry "reference-templates"
        (.pydict [("member", .pylist [.pystr name])])) (.pystr name)
        = (dset entry "reference-templates" (.pydict [("member", .pylist [.pystr name])]), .ok ()) := by
      simp only [add_reference_template, hnameb, hk2, Bool.not_true, if_false,
        Bool.false_eq_true, hget1]
      norm_num [listContainsStr, dget, isStrVal, hself]
    rw [hstep2]
    refine ⟨rfl, rfl, rfl, ?_⟩
    simp [refTemplateMembers, hget1, dget, countStr, isStrVal, hself]
  · have hk : hasKey entry "reference-templates" = true := by
      simp [hasKey, hr]
    have hstep1 : add_reference_template entry (.pystr name)
        = (dset entry "reference-templates"
            (.pydict (dset rfs "member" (.pylist (mem ++ [.pystr name])))), .ok ()) := by
      simp only [add_reference_template, hnameb, hk, Bool.not_true, if_false,
        Bool.false_eq_true, hr, hm, hc]
    rw [hstep1]
    have hget1 : dget (dset entry "reference-templates"
        (.pydict (dset rfs "member" (.pylist (mem ++ [.pystr name]))))) "reference-templates"
        = some (.pydict (dset rfs "member" (.pylist (mem ++ [.pystr name])))) := dget_dset_self ..
    have hgetm : dget (dset rfs "member" (.pylist (mem ++ [.pystr name]))) "member"
        = some (.pylist (mem ++ [.pystr name])) := dget_dset_self ..
    have hk2 : hasKey (dset entry "reference-templates"
        (.pydict (dset rfs "member" (.pylist (mem ++ [.pystr name]))))) "reference-templates"
        = true := hasKey_dset_self ..
    have hc2 : listContainsStr (mem ++ [.pystr name]) name = true := by
      simp [listContainsStr, List.any_append, isStrVal, hself]
    have hstep2 : add_reference_template (dset entry "reference-templates"
        (.pydict (dset rfs "member" (.pylist (mem ++ [.pystr name]))))) (.pystr name)
        = (dset entry "reference-templates"
            (.pydict (dset rfs "member" (.pylist (mem ++ [.pystr name])))), .ok ()) := by
      simp only [add_reference_template, hnameb, hk2, Bool.not_true, if_false,
        Bool.false_eq_true, hget1, hgetm, hc2, if_true]
    rw [hstep2]
    refine ⟨rfl, rfl, rfl, ?_⟩
    simp only [refTemplateMembers, hget1, hgetm, countStr_append,
      countStr_eq_zero mem name hc]
    simp [countStr, isStrVal, hself]

/-- C6 witness: adding the template name `"T1"` twice to a fresh entry. -/
theorem C6_add_reference_template_idempotent_witness :
    (add_reference_template [] (.pystr "T1")).2 = .ok () ∧
    (add_reference_template (add_reference_template [] (.pystr "T1")).1 (.pystr "T1")).2
      = .ok () ∧
    (add_reference_template (add_reference_template [] (.pystr "T1")).1 (.pystr "T1")).1
      = (add_reference_template [] (.pystr "T1")).1 ∧
    countStr (refTemplateMembers (add_reference_template [] (.pystr "T1")).1) "T1" = 1 :=
  C6_add_reference_template_idempotent [] "T1" (by decide) (Or.inl rfl)

/-! ### C7: `TemplateStacks.add_device` is NOT idempotent -/

/-- The `devices['entry']` list of a devices value, when present. -/
def devEntries (v : PyVal) : List PyVal :=
  match v with
  | .pydict fs =>
    match dget fs "entry" with
    | some (.pylist l) => l
    | _ => []
  | _ => []

/-- Number of device entries carrying a given `@name`. -/
def countNamed (l : List PyVal) (name : String) : Nat :=
  (l.filter (fun d => isDeviceNamed d name)).length

theorem countNamed_append (l₁ l₂ : List PyVal) (name : String) :
    countNamed (l₁ ++ l₂) name = countNamed l₁ name + countNamed l₂ name := by
  simp [countNamed, List.filter_append]

/-- On a well-formed devices container, `_ensure_devices_container`
only (possibly) syncs `self.entry['devices']`. -/
theorem ensureDC_wf (s : TS) (dfs : Fields) (h : s.devices = .pydict dfs)
    (hk : hasKey dfs "entry" = true) :
    ∃ E : Fields, ensureDevicesContainer s = { s with entry := E } := by
  have hcond : (s.devices.isDict && (match s.devices with
      | .pydict fs => hasKey fs "entry"
      | _ => false)) = true := by
    rw [h]; simp [isDict, hk]
  by_cases he : hasKey s.entry "devices"
  · refine ⟨s.entry, ?_⟩
    simp only [ensureDevicesContainer, hcond, Bool.not_true, Bool.false_eq_true, if_false, he,
      if_true]
  · refine ⟨dset s.entry "devices" s.devices, ?_⟩
    simp only [ensureDevicesContainer, hcond, Bool.not_true, Bool.false_eq_true, if_false, he,
      Bool.false_eq_true, if_false]

/-- `add_device` with `variables=None` on a well-formed devices
container: appends `{'@name': name}` and returns `True`. -/
theorem add_device_wf (s : TS) (dfs : Fields) (l : List PyVal) (name : String)
    (h : s.devices = .pydict dfs) (he : dget dfs "entry" = some (.pylist l)) :
    ∃ E : Fields, add_device s name none =
      ({ s with
          devices := .pydict (dset dfs "entry"
            (.pylist (l ++ [.pydict [("@name", .pystr name)]]))),
          entry := E }, .ok true) := by
  obtain ⟨E, hE⟩ := ensureDC_wf s dfs h (by simp [hasKey, he])
  refine ⟨dset E "devices" (.pydict (dset dfs "entry"
    (.pylist (l ++ [.pydict [("@name", .pystr name)]])))), ?_⟩
  simp only [add_device, hE, h, he]

/-- C7: `TemplateStacks.add_device` is not idempotent: adding the same
device name twice (with `variables=None`) appends two entries with that
`@name` — duplicates are allowed. -/
theorem C7_add_device_not_idempotent (s : TS) (dfs : Fields) (l : List PyVal) (name : String)
    (h : s.devices = .pydict dfs) (he : dget dfs "entry" = some (.pylist l)) :
    (add_device s name none).2 = .ok true ∧
    (add_device (add_device s name none).1 name none).2 = .ok true ∧
    countNamed (devEntries (add_device (add_device s name none).1 name none).1.devices) name
      = countNamed l name + 2 := by
  obtain ⟨E1, h1⟩ := add_device_wf s dfs l name h he
  have hd1 : (add_device s name none).1.devices
      = .pydict (dset dfs "entry" (.pylist (l ++ [.pydict [("@name", .pystr name)]]))) := by
    rw [h1]
  obtain ⟨E2, h2⟩ := add_device_wf (add_device s name none).1
    (dset dfs "entry" (.pylist (l ++ [.pydict [("@name", .pystr name)]])))
    (l ++ [.pydict [("@name", .pystr name)]]) name hd1 (dget_dset_self ..)
  have hnamed : isDeviceNamed (.pydict [("@name", .pystr name)]) name = true := by
    simp [isDeviceNamed, dgetD, dget, isStrVal]
  refine ⟨by rw [h1], by rw [h2], ?_⟩
  rw [h2]
  simp only [devEntries, dset_dset, dget_dset_self]
  rw [List.append_assoc, countNamed_append]
  simp [countNamed, hnamed]

/-- C7 witness: a stack with one existing device `fw0`; `fw1` is added
twice. -/
theorem C7_add_device_not_idempotent_witness :
    ((add_device
      { name := "stk", templates := .pydict [("member", .pylist [])],
        devices := .pydict [("entry", .pylist [.pydict [("@name", .pystr "fw0")]])],
        varBlock := .pydict [("entry", .pylist [])], entry := [] } "fw1" none).2 = .ok true) ∧
    ((add_device (add_device
      { name := "stk", templates := .pydict [("member", .pylist [])],
        devices := .pydict [("entry", .pylist [.pydict [("@name", .pystr "fw0")]])],
        varBlock := .pydict [("entry", .pylist [])], entry := [] } "fw1" none).1 "fw1" none).2
      = .ok true) ∧
    countNamed (devEntries (add_device (add_device
      { name := "stk", templates := .pydict [("member", .pylist [])],
        devices := .pydict [("entry", .pylist [.pydict [("@name", .pystr "fw0")]])],
        varBlock := .pydict [("entry", .pylist [])], entry := [] } "fw1" none).1 "fw1" none).1.devices)
      "fw1" = countNamed [.pydict [("@name", .pystr "fw0")]] "fw1" + 2 :=
  C7_add_device_not_idempotent _ [("entry", .pylist [.pydict [("@name", .pystr "fw0")]])]
    [.pydict [("@name", .pystr "fw0")]] "fw1" rfl rfl

/-! ### C2: `_infer_variable_type` search order -/

/-- Stated from the spec claim (C2): the type-tag key of the first
entry in the list whose `@name` matches and whose `type` is a
non-empty dict, or `none` ("not found").  This is the claim-side
description against which `inferVariableType` is compared. -/
def specFirstTypeTag (variable_name : String) : List PyVal → Option String
  | [] => none
  | .pydict fs :: rest =>
    if isStrVal (dgetD fs "@name" .pynone) variable_name then
      match dget fs "type" with
      | some (.pydict ((k, _) :: _)) => some k
      | _ => specFirstTypeTag variable_name rest
    else specFirstTypeTag variable_name rest
  | _ :: rest => specFirstTypeTag variable_name rest

/-- The per-device variable entries of one device entry (empty when the
device has no well-formed `variable.entry` block). -/
def deviceVarEntries (d : PyVal) : List PyVal :=
  match d with
  | .pydict fs =>
    match dget fs "variable" with
    | some (.pydict vfs) =>
      match dget vfs "entry" with
      | some (.pylist el) => el
      | _ => []
    | _ => []
  | _ => []

/-- Stated from the spec claim (C2): stack-level definitions are
searched first; only if none matches are the devices' entries scanned
(devices in list order, entries in list order). -/
def specInferTag (variable_name : String) (stackEntries : List PyVal)
    (devices : List PyVal) : Option String :=
  match specFirstTypeTag variable_name stackEntries with
  | some k => some k
  | none => specFirstTypeTag variable_name (devices.flatMap deviceVarEntries)

/-- Shape condition under which the device fallback scan of
`_infer_variable_type` runs without raising: each device entry is
either not a dict (skipped), or its `variable` block is absent,
non-dict (both skipped), or a dict whose `entry`, when present, is a
list of dicts. -/
def wfDeviceForScan (d : PyVal) : Bool :=
  match d with
  | .pydict fs =>
    match dget fs "variable" with
    | some (.pydict vfs) =>
      match dget vfs "entry" with
      | some (.pylist el) => el.all isDict
      | none => true
      | some _ => false
    | some _ => true
    | none => true
  | _ => true

theorem scanVarEntries_eq_spec (variable_name : String) (l : List PyVal)
    (h : l.all isDict = true) :
    scanVarEntries variable_name l = .ok (specFirstTypeTag variable_name l) := by
  induction l with
  | nil => rfl
  | cons d rest ih =>
    rw [List.all_cons, Bool.and_eq_true] at h
    obtain ⟨hd, hrest⟩ := h
    match d, hd with
    | .pydict fs, _ =>
      by_cases hn : isStrVal (dgetD fs "@name" .pynone) variable_name
      · simp only [scanVarEntries, specFirstTypeTag, hn, if_true]
        match dget fs "type" with
        | some (.pydict ((k, v) :: tl)) => rfl
        | some (.pydict []) => exact ih hrest
        | some .pynone => exact ih hrest
        | some (.pybool b) => exact ih hrest
        | some (.pystr t) => exact ih hrest
        | some (.pyint n) => exact ih hrest
        | some (.pylist il) => exact ih hrest
        | none => exact ih hrest
      · simp only [scanVarEntries, specFirstTypeTag, hn, Bool.false_eq_true, if_false]
        exact ih hrest

theorem specFirstTypeTag_append (variable_name : String) (a b : List PyVal) :
    specFirstTypeTag variable_name (a ++ b)
      = match specFirstTypeTag variable_name a with
        | some k => some k
        | none => specFirstTypeTag variable_name b := by
  induction a with
  | nil => simp [specFirstTypeTag]
  | cons d rest ih =>
    match d with
    | .pydict fs =>
      by_cases hn : isStrVal (dgetD fs "@name" .pynone) variable_name
      · simp only [List.cons_append, specFirstTypeTag, hn, if_true]
        match dget fs "type" with
        | some (.pydict ((k, v) :: tl)) => rfl
        | some (.pydict []) => exact ih
        | some .pynone => exact ih
        | some (.pybool b') => exact ih
        | some (.pystr t) => exact ih
        | some (.pyint n) => exact ih
        | some (.pylist il) => exact ih
        | none => exact ih
      · simp only [List.cons_append, specFirstTypeTag, hn, Bool.false_eq_true, if_false]
        exact ih
    | .pynone => simpa [specFirstTypeTag] using ih
    | .pybool b' => simpa [specFirstTypeTag] using ih
    | .pystr t => simpa [specFirstTypeTag] using ih
    | .pyint n => simpa [specFirstTypeTag] using ih
    | .pylist il => simpa [specFirstTypeTag] using ih

theorem scanDevicesForType_eq_spec (variable_name : String) (dl : List PyVal)
    (h : dl.all wfDeviceForScan = true) :
    scanDevicesForType variable_name dl
      = .ok (specFirstTypeTag variable_name (dl.flatMap deviceVarEntries)) := by
  induction dl with
  | nil => rfl
  | cons d rest ih =>
    rw [List.all_cons, Bool.and_eq_true] at h
    obtain ⟨hd, hrest⟩ := h
    rw [List.flatMap_cons, specFirstTypeTag_append]
    match d with
    | .pydict dfs =>
      match hv : dget dfs "variable" with
      | some (.pydict vfs) =>
        match he : dget vfs "entry" with
        | some (.pylist el) =>
          have hel : el.all isDict = true := by
            simpa [wfDeviceForScan, hv, he] using hd
          simp only [scanDevicesForType, hv, he, deviceVarEntries, dgetD, Option.getD_some,
            iterList, scanVarEntries_eq_spec variable_name el hel]
          match specFirstTypeTag variable_name el with
          | some k => rfl
          | none => exact ih hrest
        | none =>
          simp only [scanDevicesForType, hv, he, deviceVarEntries, dgetD, Option.getD_none,
            iterList]
          simpa [scanVarEntries, specFirstTypeTag] using ih hrest
        | some .pynone => simp [wfDeviceForScan, hv, he] at hd
        | some (.pybool b') => simp [wfDeviceForScan, hv, he] at hd
        | some (.pystr t) => simp [wfDeviceForScan, hv, he] at hd
        | some (.pyint n) => simp [wfDeviceForScan, hv, he] at hd
        | some (.pydict mfs) => simp [wfDeviceForScan, hv, he] at hd
      | some .pynone => simpa [scanDevicesForType, hv, deviceVarEntries] using ih hrest
      | some (.pybool b') => simpa [scanDevicesForType, hv, deviceVarEntries] using ih hrest
      | some (.pystr t) => simpa [scanDevicesForType, hv, deviceVarEntries] using ih hrest
      | some (.pyint n) => simpa [scanDevicesForType, hv, deviceVarEntries] using ih hrest
      | some (.pylist il) => simpa [scanDevicesForType, hv, deviceVarEntries] using ih hrest
      | none => simpa [scanDevicesForType, hv, deviceVarEntries] using ih hrest
    | .pynone => simpa [scanDevicesForType, deviceVarEntries] using ih hrest
    | .pybool b' => simpa [scanDevicesForType, deviceVarEntries] using ih hrest
    | .pystr t => simpa [scanDevicesForType, deviceVarEntries] using ih hrest
    | .pyint n => simpa [scanDevicesForType, deviceVarEntries] using ih hrest
    | .pylist il => simpa [scanDevicesForType, deviceVarEntries] using ih hrest

/-- C2: `_infer_variable_type` first searches the stack-level
`variable['entry']` definitions, returning the type-tag of the first
matching entry with a non-empty dict `type`; only if none matches does
it scan the devices' per-device variable entries (devices in list
order, entries in list order); if neither search matches it returns
`None`. -/
theorem C2_infer_variable_type (s : TS) (variable_name : String)
    (vbf dbf : Fields) (sl dl : List PyVal)
    (hvb : s.varBlock = .pydict vbf)
    (hse : dget vbf "entry" = some (.pylist sl))
    (hsl : sl.all isDict = true)
    (hdv : s.devices = .pydict dbf)
    (hde : dget dbf "entry" = some (.pylist dl))
    (hdl : dl.all wfDeviceForScan = true) :
    inferVariableType s variable_name = .ok (specInferTag variable_name sl dl) := by
  have hvtruthy : (PyVal.pydict vbf).truthy = true := by
    have := dget_isSome_ne_nil vbf "entry" _ hse
    simp [PyVal.truthy, this]
  have hdtruthy : (PyVal.pydict dbf).truthy = true := by
    have := dget_isSome_ne_nil dbf "entry" _ hde
    simp [PyVal.truthy, this]
  have hvk : hasKey vbf "entry" = true := by simp [hasKey, hse]
  simp only [inferVariableType, hvb, hvtruthy, hvk, Bool.and_self, if_true, dgetD, hse,
    Option.getD_some, iterList, scanVarEntries_eq_spec variable_name sl hsl, specInferTag]
  match specFirstTypeTag variable_name sl with
  | some k => rfl
  | none =>
    simp only [hdv, hdtruthy, if_true, dgetD, hde, Option.getD_some, iterList,
      scanDevicesForType_eq_spec variable_name dl hdl]

/-- C2 witness: stack defines `$ip`; a device carries `$host`; `$miss`
is found nowhere. -/
theorem C2_infer_variable_type_witness :
    inferVariableType
      { name := "stk", templates := .pydict [("member", .pylist [])],
        devices := .pydict [("entry", .pylist [.pydict [("@name", .pystr "fw1"),
          ("variable", .pydict [("entry", .pylist [.pydict [("@name", .pystr "$host"),
            ("type", .pydict [("hostname", .pystr "h1")])]])])]])],
        varBlock := .pydict [("entry", .pylist [.pydict [("@name", .pystr "$ip"),
          ("type", .pydict [("ip-netmask", .pystr "0.0.0.0/0")])]])],
        entry := [] } "$host"
      = .ok (specInferTag "$host"
          [.pydict [("@name", .pystr "$ip"), ("type", .pydict [("ip-netmask", .pystr "0.0.0.0/0")])]]
          [.pydict [("@name", .pystr "fw1"),
            ("variable", .pydict [("entry", .pylist [.pydict [("@name", .pystr "$host"),
              ("type", .pydict [("hostname", .pystr "h1")])]])])]]) :=
  C2_infer_variable_type _ "$host" _ _ _ _ rfl rfl (by decide) rfl rfl (by decide)

/-! ### C10: `set_device_variable_value` without device creation is a
silent no-op when the device is absent -/

theorem updateDeviceInList_no_match (device_name variable_name variable_type : String)
    (nv : PyVal) (dl : List PyVal)
    (hdicts : dl.all isDict = true)
    (hnone : dl.all (fun d => !(isDeviceNamed d device_name)) = true) :
    updateDeviceInList device_name variable_name variable_type nv dl = (dl, .ok false) := by
  induction dl with
  | nil => rfl
  | cons d rest ih =>
    rw [List.all_cons, Bool.and_eq_true] at hdicts hnone
    match d, hdicts.1 with
    | .pydict fs, _ =>
      have hnm : isStrVal (dgetD fs "@name" .pynone) device_name = false := by
        simpa [isDeviceNamed] using hnone.1
      simp [updateDeviceInList, hnm, ih hdicts.2 hnone.2]

/-- The `any(...)` device-existence check equals `isDeviceNamed` over
the entry list. -/
theorem deviceExistsChk_eq (dbf : Fields) (dl : List PyVal) (serial : String)
    (hde : dget dbf "entry" = some (.pylist dl)) :
    deviceExistsChk (.pydict dbf) serial = .ok (dl.any (fun d => isDeviceNamed d serial)) := by
  have h1 : dgetD dbf "entry" (.pylist []) = .pylist dl := by simp [dgetD, hde]
  simp only [deviceExistsChk, h1, iterList]

/-- `update_device_variable` when no device entry matches: the loop
completes without mutating anything; `self.devices` is unchanged. -/
theorem update_device_variable_no_match (s : TS) (dbf : Fields) (dl : List PyVal)
    (device_name variable_name variable_type : String) (nv : PyVal)
    (hdv : s.devices = .pydict dbf)
    (hde : dget dbf "entry" = some (.pylist dl))
    (hdicts : dl.all isDict = true)
    (hnone : dl.all (fun d => !(isDeviceNamed d device_name)) = true) :
    (update_device_variable s device_name variable_name variable_type nv).2 = .ok () ∧
    (update_device_variable s device_name variable_name variable_type nv).1.devices
      = s.devices := by
  by_cases hT : variable_types.contains variable_type
  · have hcond : (!(variable_types.contains variable_type)) = false := by rw [hT]; rfl
    obtain ⟨E, hE⟩ := ensureDC_wf s dbf hdv (by simp [hasKey, hde])
    have hrun : update_device_variable s device_name variable_name variable_type nv
        = ({ s with entry := E, devices := .pydict (dset dbf "entry" (.pylist dl)) }, .ok ()) := by
      have hnotc : ¬((!(variable_types.contains variable_type)) = true) := by
        rw [hcond]; exact Bool.false_ne_true
      unfold update_device_variable
      rw [if_neg hnotc]
      rw [hE]
      simp only [hdv, hde,
        updateDeviceInList_no_match device_name variable_name variable_type _ dl hdicts hnone]
    rw [hrun]
    rw [dset_same dbf "entry" _ hde]
    exact ⟨rfl, hdv.symm⟩
  · have hcond : (!(variable_types.contains variable_type)) = true := by
      simp [Bool.not_eq_true', ← Bool.not_eq_true] at hT ⊢
      simpa using hT
    unfold update_device_variable
    rw [if_pos hcond]
    exact ⟨rfl, rfl⟩

/-- C10: when `variable_name` has a discoverable type but no device
entry with `@name == device_serial` exists, calling
`set_device_variable_value(..., create_device_if_missing=False)`
returns normally without raising and without adding or modifying any
device entry — a silent no-op rather than an error. -/
theorem C10_set_value_no_create_noop (s : TS) (serial variable_name : String) (value : PyVal)
    (dbf : Fields) (dl : List PyVal) (t : String)
    (hdv : s.devices = .pydict dbf)
    (hde : dget dbf "entry" = some (.pylist dl))
    (hdicts : dl.all isDict = true)
    (hnone : dl.all (fun d => !(isDeviceNamed d serial)) = true)
    (hinfer : inferVariableType s variable_name = .ok (some t))
    (ht : (t == "") = false) :
    (set_device_variable_value s serial variable_name value false).2 = .ok () ∧
    (set_device_variable_value s serial variable_name value false).1.devices = s.devices := by
  have hany : dl.any (fun d => isDeviceNamed d serial) = false := by
    rw [← Bool.not_eq_true, List.any_eq_true]
    rintro ⟨d, hdmem, hnamed⟩
    have hthis := (List.all_eq_true.mp hnone) d hdmem
    rw [hnamed] at hthis
    simp at hthis
  have hchk : deviceExistsChk s.devices serial = .ok false := by
    rw [hdv, deviceExistsChk_eq dbf dl serial hde, hany]
  have hstep : set_device_variable_value s serial variable_name value false
      = update_device_variable s serial variable_name t
          (if t == "pre-shared-key" && value.isStr then
            PyVal.pydict [("value", value)] else value) := by
    simp only [set_device_variable_value, hinfer, ht, Bool.false_eq_true, if_false, hchk,
      Bool.not_false, Bool.and_false]
  rw [hstep]
  exact update_device_variable_no_match s dbf dl serial variable_name t _ hdv hde hdicts hnone

/-- C10 witness: `$ip` is defined at stack level, device `0123` is
absent, `create_device_if_missing=False`. -/
theorem C10_set_value_no_create_noop_witness :
    (set_device_variable_value
      { name := "stk", templates := .pydict [("member", .pylist [])],
        devices := .pydict [("entry", .pylist [.pydict [("@name", .pystr "fw0")]])],
        varBlock := .pydict [("entry", .pylist [.pydict [("@name", .pystr "$ip"),
          ("type", .pydict [("ip-netmask", .pystr "0.0.0.0/0")])]])],
        entry := [] } "0123" "$ip" (.pystr "10.0.0.1/32") false).2 = .ok () ∧
    (set_device_variable_value
      { name := "stk", templates := .pydict [("member", .pylist [])],
        devices := .pydict [("entry", .pylist [.pydict [("@name", .pystr "fw0")]])],
        varBlock := .pydict [("entry", .pylist [.pydict [("@name", .pystr "$ip"),
          ("type", .pydict [("ip-netmask", .pystr "0.0.0.0/0")])]])],
        entry := [] } "0123" "$ip" (.pystr "10.0.0.1/32") false).1.devices
      = PyVal.pydict [("entry", .pylist [.pydict [("@name", .pystr "fw0")]])] :=
  C10_set_value_no_create_noop _ "0123" "$ip" (.pystr "10.0.0.1/32")
    [("entry", .pylist [.pydict [("@name", .pystr "fw0")]])]
    [.pydict [("@name", .pystr "fw0")]] "ip-netmask"
    rfl rfl (by decide) (by decide) rfl (by decide)

/-! ### C8: container normalization before mutation -/

/-- `_ensure_devices_container` is idempotent. -/
theorem ensureDC_idem (s : TS) :
    ensureDevicesContainer (ensureDevicesContainer s) = ensureDevicesContainer s := by
  by_cases hc : (s.devices.isDict && (match s.devices with
      | .pydict fs => hasKey fs "entry"
      | _ => false)) = true
  · by_cases he : hasKey s.entry "devices"
    · have h1 : ensureDevicesContainer s = s := by
        unfold ensureDevicesContainer
        simp only [hc, Bool.not_true, Bool.false_eq_true, if_false, he, if_true]
      rw [h1, h1]
    · have h1 : ensureDevicesContainer s = { s with entry := dset s.entry "devices" s.devices } := by
        unfold ensureDevicesContainer
        simp only [hc, Bool.not_true, Bool.false_eq_true, if_false, he, if_true]
      rw [h1]
      unfold ensureDevicesContainer
      simp only [hc, Bool.not_true, Bool.false_eq_true, if_false, hasKey_dset_self, if_true]
  · have hcf : (s.devices.isDict && (match s.devices with
        | .pydict fs => hasKey fs "entry"
        | _ => false)) = false := by simpa using hc
    have h1 : ensureDevicesContainer s =
        { s with
          devices := .pydict [("entry", .pylist [])]
          entry := dset s.entry "devices" (.pydict [("entry", .pylist [])]) } := by
      unfold ensureDevicesContainer
      simp only [hcf, Bool.not_false, if_true, hasKey_dset_self]
    rw [h1]
    unfold ensureDevicesContainer
    simp only [isDict, hasKey, dget, hasKey_dset_self]
    norm_num
    intro hx
    simp [dget_dset_self] at hx

/-- After `_ensure_devices_container`, `self.devices` is always a dict
containing the key `entry`. -/
theorem ensureDC_post (s : TS) :
    ∃ dfs : Fields, (ensureDevicesContainer s).devices = .pydict dfs ∧
      hasKey dfs "entry" = true := by
  by_cases hc : (s.devices.isDict && (match s.devices with
      | .pydict fs => hasKey fs "entry"
      | _ => false)) = true
  · match hdv : s.devices with
    | .pydict dfs =>
      rw [hdv] at hc
      have hk : hasKey dfs "entry" = true := by simpa [isDict] using hc
      refine ⟨dfs, ?_, hk⟩
      unfold ensureDevicesContainer
      rw [hdv]
      simp only [isDict, hk, Bool.and_self, Bool.not_true, Bool.false_eq_true, if_false]
      by_cases he : hasKey s.entry "devices" <;> simp [he, hdv]
    | .pynone => rw [hdv] at hc; simp [isDict] at hc
    | .pybool b => rw [hdv] at hc; simp [isDict] at hc
    | .pystr t => rw [hdv] at hc; simp [isDict] at hc
    | .pyint n => rw [hdv] at hc; simp [isDict] at hc
    | .pylist l => rw [hdv] at hc; simp [isDict] at hc
  · have hcf : (s.devices.isDict && (match s.devices with
        | .pydict fs => hasKey fs "entry"
        | _ => false)) = false := by simpa using hc
    refine ⟨[("entry", .pylist [])], ?_, rfl⟩
    unfold ensureDevicesContainer
    simp only [hcf, Bool.not_false, if_true, hasKey_dset_self]

/-- `add_device` always leaves `self.devices` as a dict containing the
key `entry` (the mutation happens on the normalized container). -/
theorem add_device_post (s : TS) (n : String) (varsArg : Option PyVal) :
    ∃ dfs : Fields, (add_device s n varsArg).1.devices = .pydict dfs ∧
      hasKey dfs "entry" = true := by
  obtain ⟨dfs, hd, hk⟩ := ensureDC_post s
  match varsArg with
  | none =>
    simp only [add_device]
    rw [hd]
    dsimp only
    match he : dget dfs "entry" with
    | some (.pylist l) => exact ⟨_, rfl, hasKey_dset_self ..⟩
    | some .pynone => exact ⟨dfs, hd, hk⟩
    | some (.pybool b) => exact ⟨dfs, hd, hk⟩
    | some (.pystr t) => exact ⟨dfs, hd, hk⟩
    | some (.pyint m) => exact ⟨dfs, hd, hk⟩
    | some (.pydict g) => exact ⟨dfs, hd, hk⟩
    | none => exact ⟨dfs, hd, hk⟩
  | some vars =>
    simp only [add_device]
    by_cases hval : validate_variable_structure vars
    · rw [show (!validate_variable_structure vars) = false by rw [hval]; rfl]
      simp only [Bool.false_eq_true, if_false]
      rw [hd]
      dsimp only
      match he : dget dfs "entry" with
      | some (.pylist l) => exact ⟨_, rfl, hasKey_dset_self ..⟩
      | some .pynone => exact ⟨dfs, hd, hk⟩
      | some (.pybool b) => exact ⟨dfs, hd, hk⟩
      | some (.pystr t) => exact ⟨dfs, hd, hk⟩
      | some (.pyint m) => exact ⟨dfs, hd, hk⟩
      | some (.pydict g) => exact ⟨dfs, hd, hk⟩
      | none => exact ⟨dfs, hd, hk⟩
    · rw [show (!validate_variable_structure vars) = true by
        rw [show validate_variable_structure vars = false by simpa using hval]; rfl]
      simp only [if_true]
      exact ⟨dfs, hd, hk⟩

/-- `update_device_variable` either leaves the whole state untouched
(disallowed type) or leaves `self.devices` as a dict containing the
key `entry`. -/
theorem update_device_variable_post (s : TS) (dn vn vt : String) (nv : PyVal) :
    (update_device_variable s dn vn vt nv).1 = s ∨
      ∃ dfs : Fields, (update_device_variable s dn vn vt nv).1.devices = .pydict dfs ∧
        hasKey dfs "entry" = true := by
  by_cases hT : variable_types.contains vt
  · right
    obtain ⟨dfs, hd, hk⟩ := ensureDC_post s
    have hnotc : ¬((!(variable_types.contains vt)) = true) := by
      rw [hT]; exact fun h => Bool.false_ne_true (by simp at h)
    set res := update_device_variable s dn vn vt nv with hres
    unfold update_device_variable at hres
    rw [if_neg hnotc] at hres
    dsimp only at hres
    rw [hd] at hres
    dsimp only at hres
    split at hres
    · split at hres
      · exact ⟨_, by rw [hres], hasKey_dset_self ..⟩
      · exact ⟨_, by rw [hres], hasKey_dset_self ..⟩
      · exact ⟨_, by rw [hres], hasKey_dset_self ..⟩
    · exact ⟨dfs, by rw [hres]; exact hd, hk⟩
    · exact ⟨dfs, by rw [hres]; exact hd, hk⟩
    · exact ⟨dfs, by rw [hres]; exact hd, hk⟩
    · exact ⟨dfs, by rw [hres]; exact hd, hk⟩
  · left
    have hcond : (!(variable_types.contains vt)) = true := by
      rw [show variable_types.contains vt = false by simpa using hT]; rfl
    unfold update_device_variable
    rw [if_pos hcond]

/-- `set_device_variable_value` either leaves the state untouched or —
since every mutation it performs goes through `add_device` /
`update_device_variable`, which normalize first — leaves
`self.devices` as a dict containing the key `entry`. -/
theorem set_device_variable_value_post (s : TS) (serial vn : String) (value : PyVal) (c : Bool) :
    (set_device_variable_value s serial vn value c).1 = s ∨
      ∃ dfs : Fields, (set_device_variable_value s serial vn value c).1.devices = .pydict dfs ∧
        hasKey dfs "entry" = true := by
  set res := set_device_variable_value s serial vn value c with hres
  unfold set_device_variable_value at hres
  split at hres
  · left; rw [hres]
  · split at hres
    · left; rw [hres]
    · split at hres
      · left; rw [hres]
      · split at hres
        · left; rw [hres]
        · dsimp only at hres
          split at hres
          · -- the exception branch of `match addStep.2`
            split at hres
            · -- a device was added and the call raised: state is add_device's
              obtain ⟨dfs, hd, hk⟩ := add_device_post s serial none
              exact Or.inr ⟨dfs, by rw [hres]; exact hd, hk⟩
            · -- addStep = (s, ok ()): the state is untouched
              left; rw [hres]
          · -- the ok branch: delegate to update_device_variable
            split at hres
            · -- on the state left by add_device
              dsimp only at hres
              rcases update_device_variable_post
                  (add_device s serial none).1 serial vn _ _ with h | ⟨dfs, hdd, hkk⟩
              · obtain ⟨dfs, hd, hk⟩ := add_device_post s serial none
                exact Or.inr ⟨dfs, by rw [hres, h]; exact hd, hk⟩
              · exact Or.inr ⟨dfs, by rw [hres]; exact hdd, hkk⟩
            · -- on the original state
              dsimp only at hres
              rcases update_device_variable_post s serial vn _ _ with h | ⟨dfs, hdd, hkk⟩
              · left; rw [hres]; exact h
              · exact Or.inr ⟨dfs, by rw [hres]; exact hdd, hkk⟩

/-- `_ensure_device_variables_container` turns a missing, non-dict, or
non-list-`entry` variable block into a dict whose `entry` is `[]`. -/
theorem ensureDVC_malformed (fs : Fields)
    (h : dget fs "variable" = none ∨
      (∃ v, dget fs "variable" = some v ∧ v.isDict = false) ∨
      (∃ vfs : Fields, dget fs "variable" = some (.pydict vfs) ∧
        ∀ el : List PyVal, dget vfs "entry" ≠ some (.pylist el))) :
    ∃ vfs' : Fields, dget (ensureDeviceVariablesContainer fs) "variable" = some (.pydict vfs') ∧
      dget vfs' "entry" = some (.pylist []) := by
  rcases h with h | ⟨v, hv, hnd⟩ | ⟨vfs, hv, hne⟩
  · refine ⟨[("entry", .pylist [])], ?_, rfl⟩
    unfold ensureDeviceVariablesContainer
    rw [h]
    exact dget_dset_self ..
  · refine ⟨[("entry", .pylist [])], ?_, rfl⟩
    unfold ensureDeviceVariablesContainer
    rw [hv]
    match v, hnd with
    | .pynone, _ => exact dget_dset_self ..
    | .pybool b, _ => exact dget_dset_self ..
    | .pystr t, _ => exact dget_dset_self ..
    | .pyint n, _ => exact dget_dset_self ..
    | .pylist l, _ => exact dget_dset_self ..
  · refine ⟨dset vfs "entry" (.pylist []), ?_, dget_dset_self ..⟩
    unfold ensureDeviceVariablesContainer
    rw [hv]
    dsimp only
    match he : dget vfs "entry" with
    | some (.pylist el) => exact absurd he (hne el)
    | some .pynone => exact dget_dset_self ..
    | some (.pybool b) => exact dget_dset_self ..
    | some (.pystr t) => exact dget_dset_self ..
    | some (.pyint n) => exact dget_dset_self ..
    | some (.pydict g) => exact dget_dset_self ..
    | none => exact dget_dset_self ..

/-- C8 counterexample: `remove_device_variable` does NOT normalize the
per-device variable block.  On a device whose `variable` is `None` it
raises a `TypeError` (from `'entry' not in device_entry['variable']`),
whereas on the normalized block `{'entry': []}` it returns `False`. -/
theorem C8_counterexample :
    (remove_device_variable
      { name := "stk", templates := .pydict [("member", .pylist [])],
        devices := .pydict [("entry", .pylist
          [.pydict [("@name", .pystr "fw1"), ("variable", .pynone)]])],
        varBlock := .pydict [("entry", .pylist [])], entry := [] } "fw1" "$v").2
      = .error "TypeError: argument is not a container" ∧
    (remove_device_variable
      { name := "stk", templates := .pydict [("member", .pylist [])],
        devices := .pydict [("entry", .pylist
          [.pydict [("@name", .pystr "fw1"),
            ("variable", .pydict [("entry", .pylist [])])]])],
        varBlock := .pydict [("entry", .pylist [])], entry := [] } "fw1" "$v").2
      = .ok false := ⟨rfl, rfl⟩

/-- C8 (amended): `add_device`, `remove_device`,
`update_device_variable` (for an allowed type) and
`remove_device_variable` normalize the devices container first (each
behaves exactly as on the `_ensure_devices_container`-normalized
state, and a missing, non-dict, or `entry`-less devices dict is
replaced by `{'entry': []}`); `update_device_variable` further
normalizes the matched device's variable block (a missing, `None`,
non-dict, or non-list-`entry` block gets a fresh `entry: []`, other
keys of a dict block being kept), and `set_device_variable_value`
mutates only through these delegates, leaving the devices container in
normalized shape whenever it changes the state at all.
`remove_device_variable`, however, performs NO variable-block
normalization: it returns `False` or raises on a malformed block (see
the counterexample). -/
theorem C8_container_normalization (s : TS) (fs : Fields)
    (dn vn vt : String) (nv : PyVal) (varsArg : Option PyVal) :
    add_device s dn varsArg = add_device (ensureDevicesContainer s) dn varsArg ∧
    remove_device s dn = remove_device (ensureDevicesContainer s) dn ∧
    (variable_types.contains vt = true →
      update_device_variable s dn vn vt nv
        = update_device_variable (ensureDevicesContainer s) dn vn vt nv) ∧
    remove_device_variable s dn vn
      = remove_device_variable (ensureDevicesContainer s) dn vn ∧
    ((s.devices.isDict && (match s.devices with
        | .pydict dfs => hasKey dfs "entry"
        | _ => false)) = false →
      (ensureDevicesContainer s).devices = .pydict [("entry", .pylist [])]) ∧
    ((dget fs "variable" = none ∨
      (∃ v, dget fs "variable" = some v ∧ v.isDict = false) ∨
      (∃ vfs : Fields, dget fs "variable" = some (.pydict vfs) ∧
        ∀ el : List PyVal, dget vfs "entry" ≠ some (.pylist el))) →
      ∃ vfs' : Fields, dget (ensureDeviceVariablesContainer fs) "variable"
        = some (.pydict vfs') ∧ dget vfs' "entry" = some (.pylist [])) ∧
    (∀ serial value c, (set_device_variable_value s serial vn value c).1 = s ∨
      ∃ dfs : Fields, (set_device_variable_value s serial vn value c).1.devices
        = .pydict dfs ∧ hasKey dfs "entry" = true) := by
  refine ⟨?_, ?_, ?_, ?_, ?_, ensureDVC_malformed fs, fun serial value c =>
    set_device_variable_value_post s serial vn value c⟩
  · unfold add_device
    rw [ensureDC_idem]
  · unfold remove_device
    rw [ensureDC_idem]
  · intro hT
    have hnotc : ¬((!(variable_types.contains vt)) = true) := by
      rw [hT]; exact fun h => Bool.false_ne_true (by simp at h)
    unfold update_device_variable
    rw [if_neg hnotc, if_neg hnotc, ensureDC_idem]
  · unfold remove_device_variable
    rw [ensureDC_idem]
  · intro hcf
    unfold ensureDevicesContainer
    simp only [hcf, Bool.not_false, if_true, hasKey_dset_self]

/-- C8 witness: a non-dict devices container is replaced by
`{'entry': []}`, and a `None` variable block is normalized by
`_ensure_device_variables_container`. -/
theorem C8_container_normalization_witness :
    (ensureDevicesContainer
      { name := "stk", templates := .pydict [("member", .pylist [])],
        devices := .pynone, varBlock := .pydict [("entry", .pylist [])],
        entry := [] }).devices = .pydict [("entry", .pylist [])] ∧
    ∃ vfs' : Fields, dget (ensureDeviceVariablesContainer
        [("@name", .pystr "fw1"), ("variable", .pynone)]) "variable"
        = some (.pydict vfs') ∧ dget vfs' "entry" = some (.pylist []) :=
  ⟨(C8_container_normalization
      { name := "stk", templates := .pydict [("member", .pylist [])],
        devices := .pynone, varBlock := .pydict [("entry", .pylist [])], entry := [] }
      [("@name", .pystr "fw1"), ("variable", .pynone)]
      "fw1" "$v" "ip-netmask" .pynone none).2.2.2.2.1 rfl,
   (C8_container_normalization
      { name := "stk", templates := .pydict [("member", .pylist [])],
        devices := .pynone, varBlock := .pydict [("entry", .pylist [])], entry := [] }
      [("@name", .pystr "fw1"), ("variable", .pynone)]
      "fw1" "$v" "ip-netmask" .pynone none).2.2.2.2.2.1
     (Or.inr (Or.inl ⟨.pynone, rfl, rfl⟩))⟩

/-! ### C1: `set_device_variable_value` raises on unknown variables and
creates missing devices -/

/-- Every allowed type-tag is a non-empty string. -/
theorem contains_ne_empty (t : String) (h : variable_types.contains t = true) :
    (t == "") = false := by
  have hmem : t ∈ variable_types := by simpa using h
  fin_cases hmem <;> rfl

/-- The shapes a variable block validated by
`validate_variable_structure` can take. -/
theorem validate_var_cases (vb : PyVal) (H : validate_variable_structure vb = true) :
    ∃ vbf : Fields, vb = .pydict vbf ∧
      (dget vbf "entry" = none ∨ dget vbf "entry" = some .pynone ∨
       dget vbf "entry" = some (.pystr "") ∨
       ∃ l : List PyVal, dget vbf "entry" = some (.pylist l) ∧ l.all validVarItem = true) := by
  match vb, H with
  | .pydict fs, H =>
    refine ⟨fs, rfl, ?_⟩
    match he : dget fs "entry" with
    | none => exact Or.inl rfl
    | some .pynone => exact Or.inr (Or.inl rfl)
    | some (.pystr st) =>
      by_cases hst : st = ""
      · subst hst
        exact Or.inr (Or.inr (Or.inl rfl))
      · exfalso
        simp only [validate_variable_structure, dgetD, he, Option.getD_some,
          normEmpty_str_of_ne st hst] at H
        exact Bool.false_ne_true H
    | some (.pylist l) =>
      refine Or.inr (Or.inr (Or.inr ⟨l, rfl, ?_⟩))
      simp only [validate_variable_structure, dgetD, he, Option.getD_some, normEmpty] at H
      match l, H with
      | [], _ => rfl
      | x :: xs, H => simpa using H
    | some (.pybool b) =>
      exfalso
      simp only [validate_variable_structure, dgetD, he, Option.getD_some, normEmpty] at H
      exact Bool.false_ne_true H
    | some (.pyint n) =>
      exfalso
      simp only [validate_variable_structure, dgetD, he, Option.getD_some, normEmpty] at H
      exact Bool.false_ne_true H
    | some (.pydict g) =>
      exfalso
      simp only [validate_variable_structure, dgetD, he, Option.getD_some, normEmpty] at H
      exact Bool.false_ne_true H

/-- The shape of a devices container validated by
`validate_devices_structure`. -/
theorem validate_devices_cases (dv : PyVal) (H : validate_devices_structure dv = true) :
    ∃ (dbf : Fields) (dl : List PyVal), dv = .pydict dbf ∧
      dget dbf "entry" = some (.pylist dl) ∧ dl.all validDeviceItem = true := by
  match dv, H with
  | .pydict fs, H =>
    match he : dget fs "entry" with
    | some (.pylist l) =>
      refine ⟨fs, l, rfl, he, ?_⟩
      simpa only [validate_devices_structure, he] using H
    | some .pynone => simp only [validate_devices_structure, he] at H; exact absurd H (by simp)
    | some (.pystr t) => simp only [validate_devices_structure, he] at H; exact absurd H (by simp)
    | some (.pybool b) => simp only [validate_devices_structure, he] at H; exact absurd H (by simp)
    | some (.pyint n) => simp only [validate_devices_structure, he] at H; exact absurd H (by simp)
    | some (.pydict g) => simp only [validate_devices_structure, he] at H; exact absurd H (by simp)
    | none => simp only [validate_devices_structure, he] at H; exact absurd H (by simp)

/-- A validated variable entry's type-tag is in `variable_types`. -/
theorem validVarItem_contains (fs : Fields) (k : String) (v : PyVal) (tl : Fields)
    (hv : validVarItem (.pydict fs) = true)
    (htype : dget fs "type" = some (.pydict ((k, v) :: tl))) :
    variable_types.contains k = true := by
  by_cases hc : variable_types.contains k
  · exact hc
  · exfalso
    by_cases h1 : hasKey fs "@name"
    · by_cases h2 : hasKey fs "type"
      · simp only [validVarItem, h1, h2, htype, Bool.not_true, Bool.or_self, Bool.false_eq_true,
          if_false] at hv
        by_cases hlen : ((((k, v) :: tl) : Fields).length == 1) = true
        · rw [hlen] at hv
          simp only [Bool.not_true, Bool.false_eq_true, if_false] at hv
          rw [show variable_types.contains k = false by simpa using hc] at hv
          simp at hv
        · rw [show ((((k, v) :: tl) : Fields).length == 1) = false by simpa using hlen] at hv
          simp at hv
      · simp [validVarItem, h2] at hv
    · simp [validVarItem, h1] at hv

/-- A type-tag found by the entry scan over validated entries is in
`variable_types`. -/
theorem scanVarEntries_tag_allowed (vn t : String) (l : List PyVal)
    (hval : l.all validVarItem = true)
    (h : scanVarEntries vn l = .ok (some t)) :
    variable_types.contains t = true := by
  induction l with
  | nil => simp [scanVarEntries] at h
  | cons d rest ih =>
    rw [List.all_cons, Bool.and_eq_true] at hval
    match d, hval.1 with
    | .pydict fs, hv1 =>
      by_cases hn : isStrVal (dgetD fs "@name" .pynone) vn
      · match ht : dget fs "type" with
        | some (.pydict ((k, v) :: tl)) =>
          have hkt : k = t := by
            simp only [scanVarEntries, hn, if_true, ht] at h
            simpa using h
          exact hkt ▸ validVarItem_contains fs k v tl hv1 ht
        | some (.pydict []) =>
          simp only [scanVarEntries, hn, if_true, ht] at h
          exact ih hval.2 h
        | some .pynone =>
          simp only [scanVarEntries, hn, if_true, ht] at h
          exact ih hval.2 h
        | some (.pybool b) =>
          simp only [scanVarEntries, hn, if_true, ht] at h
          exact ih hval.2 h
        | some (.pystr st) =>
          simp only [scanVarEntries, hn, if_true, ht] at h
          exact ih hval.2 h
        | some (.pyint n) =>
          simp only [scanVarEntries, hn, if_true, ht] at h
          exact ih hval.2 h
        | some (.pylist il) =>
          simp only [scanVarEntries, hn, if_true, ht] at h
          exact ih hval.2 h
        | none =>
          simp only [scanVarEntries, hn, if_true, ht] at h
          exact ih hval.2 h
      · simp only [scanVarEntries, hn, Bool.false_eq_true, if_false] at h
        exact ih hval.2 h

/-- The variable entries of a validated device entry are themselves
validated (when non-empty). -/
theorem validDeviceItem_entries (dfs vfs : Fields) (x : PyVal) (xs : List PyVal)
    (hv : validDeviceItem (.pydict dfs) = true)
    (hvar : dget dfs "variable" = some (.pydict vfs))
    (he : dget vfs "entry" = some (.pylist (x :: xs))) :
    (x :: xs).all validVarItem = true := by
  by_cases hnk : hasKey dfs "@name"
  · simp only [validDeviceItem, hnk, Bool.not_true, Bool.false_eq_true, if_false, hvar,
      dgetD, he, Option.getD_some, normEmpty, PyVal.truthy, List.isEmpty_cons,
      Bool.not_false, if_true] at hv
    simp only [validate_variable_structure, dgetD, he, Option.getD_some, normEmpty] at hv
    simpa using hv
  · simp [validDeviceItem, hnk] at hv

/-- A type-tag found by the device fallback scan over validated devices
is in `variable_types`. -/
theorem scanDevices_tag_allowed (vn t : String) (dl : List PyVal)
    (hval : dl.all validDeviceItem = true)
    (h : scanDevicesForType vn dl = .ok (some t)) :
    variable_types.contains t = true := by
  induction dl with
  | nil => simp [scanDevicesForType] at h
  | cons d rest ih =>
    rw [List.all_cons, Bool.and_eq_true] at hval
    match d, hval.1 with
    | .pydict dfs, hv1 =>
      match hvar : dget dfs "variable" with
      | some (.pydict vfs) =>
        match he : dget vfs "entry" with
        | some (.pylist el) =>
          simp only [scanDevicesForType, hvar, dgetD, he, Option.getD_some, iterList] at h
          match hscan : scanVarEntries vn el with
          | .error e => rw [hscan] at h; exact Except.noConfusion h
          | .ok (some k) =>
            rw [hscan] at h
            have hk : k = t := by simpa using h
            match el, hscan with
            | [], hscan => simp [scanVarEntries] at hscan
            | x :: xs, hscan =>
              exact hk ▸ scanVarEntries_tag_allowed vn k (x :: xs)
                (validDeviceItem_entries dfs vfs x xs hv1 hvar he) hscan
          | .ok none =>
            rw [hscan] at h
            exact ih hval.2 h
        | some .pynone =>
          simp only [scanDevicesForType, hvar, dgetD, he, Option.getD_some, iterList] at h
          exact Except.noConfusion h
        | some (.pystr st) =>
          simp only [scanDevicesForType, hvar, dgetD, he, Option.getD_some, iterList] at h
          match hchars : st.toList with
          | [] =>
            rw [hchars] at h
            simp only [List.map_nil, scanVarEntries] at h
            exact ih hval.2 h
          | c :: cs =>
            rw [hchars] at h
            simp only [List.map_cons, scanVarEntries] at h
            exact Except.noConfusion h
        | some (.pybool b) =>
          simp only [scanDevicesForType, hvar, dgetD, he, Option.getD_some, iterList] at h
          exact Except.noConfusion h
        | some (.pyint n) =>
          simp only [scanDevicesForType, hvar, dgetD, he, Option.getD_some, iterList] at h
          exact Except.noConfusion h
        | some (.pydict g) =>
          simp only [scanDevicesForType, hvar, dgetD, he, Option.getD_some, iterList] at h
          match g, h with
          | [], h =>
            simp only [List.map_nil, scanVarEntries] at h
            exact ih hval.2 h
          | (gk, gv) :: gs, h =>
            simp [scanVarEntries] at h
        | none =>
          simp only [scanDevicesForType, hvar, dgetD, he, Option.getD_none, iterList,
            scanVarEntries] at h
          exact ih hval.2 h
      | some .pynone => exact absurd hv1 (by simp [validDeviceItem, hvar])
      | some (.pystr st) => exact absurd hv1 (by simp [validDeviceItem, hvar])
      | some (.pybool b) => exact absurd hv1 (by simp [validDeviceItem, hvar])
      | some (.pyint n) => exact absurd hv1 (by simp [validDeviceItem, hvar])
      | some (.pylist il) => exact absurd hv1 (by simp [validDeviceItem, hvar])
      | none =>
        simp only [scanDevicesForType, hvar] at h
        exact ih hval.2 h
    | .pynone, hv1 => exact absurd hv1 (by simp [validDeviceItem])
    | .pybool b, hv1 => exact absurd hv1 (by simp [validDeviceItem])
    | .pystr st, hv1 => exact absurd hv1 (by simp [validDeviceItem])
    | .pyint n, hv1 => exact absurd hv1 (by simp [validDeviceItem])
    | .pylist il, hv1 => exact absurd hv1 (by simp [validDeviceItem])

/-- On a stack whose variable block and devices container pass their
validators, any type inferred by `_infer_variable_type` is one of the
15 allowed `variable_types` (in particular it is a non-empty, truthy
string). -/
theorem infer_tag_allowed (s : TS) (vn t : String)
    (Hvar : validate_variable_structure s.varBlock = true)
    (Hdev : validate_devices_structure s.devices = true)
    (hinf : inferVariableType s vn = .ok (some t)) :
    variable_types.contains t = true := by
  obtain ⟨vbf, hvb, hcases⟩ := validate_var_cases s.varBlock Hvar
  obtain ⟨dbf, dl, hdv, hde, hdval⟩ := validate_devices_cases s.devices Hdev
  have hdtr : (PyVal.pydict dbf).truthy = true := by
    have := dget_isSome_ne_nil dbf "entry" _ hde
    simp [PyVal.truthy, this]
  unfold inferVariableType at hinf
  rw [hvb, hdv] at hinf
  dsimp only at hinf
  rcases hcases with he | he | he | ⟨l, he, hlv⟩
  · have hhk : hasKey vbf "entry" = false := by simp [hasKey, he]
    simp only [hhk, Bool.and_false, Bool.false_eq_true, if_false, hdtr, if_true, dgetD, hde,
      Option.getD_some, iterList] at hinf
    exact scanDevices_tag_allowed vn t dl hdval hinf
  · have hhk : hasKey vbf "entry" = true := by simp [hasKey, he]
    have htr : (PyVal.pydict vbf).truthy = true := by
      have := dget_isSome_ne_nil vbf "entry" _ he
      simp [PyVal.truthy, this]
    simp only [hhk, htr, Bool.and_self, if_true, dgetD, he, Option.getD_some, iterList] at hinf
    exact Except.noConfusion hinf
  · have hhk : hasKey vbf "entry" = true := by simp [hasKey, he]
    have htr : (PyVal.pydict vbf).truthy = true := by
      have := dget_isSome_ne_nil vbf "entry" _ he
      simp [PyVal.truthy, this]
    have hiter : iterList (PyVal.pystr "") = .ok [] := rfl
    simp only [hhk, htr, Bool.and_self, if_true, dgetD, he, Option.getD_some, hiter,
      scanVarEntries, hdtr, hde, iterList] at hinf
    exact scanDevices_tag_allowed vn t dl hdval hinf
  · have hhk : hasKey vbf "entry" = true := by simp [hasKey, he]
    have htr : (PyVal.pydict vbf).truthy = true := by
      have := dget_isSome_ne_nil vbf "entry" _ he
      simp [PyVal.truthy, this]
    simp only [hhk, htr, Bool.and_self, if_true, dgetD, he, Option.getD_some, iterList] at hinf
    match hscan : scanVarEntries vn l with
    | .error e => rw [hscan] at hinf; exact Except.noConfusion hinf
    | .ok (some k) =>
      rw [hscan] at hinf
      have hk : k = t := by simpa using hinf
      exact hk ▸ scanVarEntries_tag_allowed vn k l hlv hscan
    | .ok none =>
      rw [hscan] at hinf
      simp only [hdtr, if_true, dgetD, hde, Option.getD_some, iterList] at hinf
      exact scanDevices_tag_allowed vn t dl hdval hinf

/-- Validated device entries are dicts. -/
theorem all_isDict_of_validDevice (dl : List PyVal) (h : dl.all validDeviceItem = true) :
    dl.all isDict = true := by
  rw [List.all_eq_true] at h ⊢
  intro d hd
  have := h d hd
  match d, this with
  | .pydict fs, _ => rfl

/-- The device loop passes unchanged over a prefix of non-matching dict
entries. -/
theorem updateDeviceInList_append_no_match (device_name variable_name variable_type : String)
    (nv : PyVal) (dl m : List PyVal)
    (hdicts : dl.all isDict = true)
    (hnone : dl.all (fun d => !(isDeviceNamed d device_name)) = true) :
    updateDeviceInList device_name variable_name variable_type nv (dl ++ m)
      = (dl ++ (updateDeviceInList device_name variable_name variable_type nv m).1,
         (updateDeviceInList device_name variable_name variable_type nv m).2) := by
  induction dl with
  | nil => simp [updateDeviceInList]
  | cons d rest ih =>
    rw [List.all_cons, Bool.and_eq_true] at hdicts hnone
    match d, hdicts.1 with
    | .pydict fs, _ =>
      have hnm : isStrVal (dgetD fs "@name" .pynone) device_name = false := by
        simpa [isDeviceNamed] using hnone.1
      simp [updateDeviceInList, hnm, ih hdicts.2 hnone.2]

/-- Processing a freshly created device entry `{'@name': serial}`
keeps its `@name`. -/
theorem updateMatchedDevice_keeps_name (vn vt : String) (nv : PyVal) (serial : String) :
    dget (updateMatchedDevice vn vt nv [("@name", .pystr serial)]).1 "@name"
      = some (.pystr serial) := by
  have h1 : ensureDeviceVariablesContainer [("@name", PyVal.pystr serial)]
      = [("@name", PyVal.pystr serial), ("variable", .pydict [("entry", .pylist [])])] := rfl
  unfold updateMatchedDevice
  rw [h1]
  by_cases hpsk : (vt == "pre-shared-key" && !(nv.isDict)) = true
  · simp [updateVarInEntries, dget, dset, hpsk]
  · simp [updateVarInEntries, dget, dset,
      show (vt == "pre-shared-key" && !(nv.isDict)) = false by simpa using hpsk]

/-- The device loop over `dl ++ [{'@name': serial}]`, when no entry of
`dl` matches, processes exactly the appended fresh device. -/
theorem updateDeviceInList_fresh (serial vn vt : String) (nv : PyVal) (dl : List PyVal)
    (hdicts : dl.all isDict = true)
    (hnone : dl.all (fun d => !(isDeviceNamed d serial)) = true) :
    ∃ d' : Fields, dget d' "@name" = some (.pystr serial) ∧
      (updateDeviceInList serial vn vt nv
        (dl ++ [.pydict [("@name", .pystr serial)]])).1 = dl ++ [.pydict d'] := by
  refine ⟨(updateMatchedDevice vn vt nv [("@name", .pystr serial)]).1,
    updateMatchedDevice_keeps_name vn vt nv serial, ?_⟩
  rw [updateDeviceInList_append_no_match serial vn vt nv dl _ hdicts hnone]
  have hone : updateDeviceInList serial vn vt nv [.pydict [("@name", .pystr serial)]]
      = ([.pydict (updateMatchedDevice vn vt nv [("@name", .pystr serial)]).1],
         (updateMatchedDevice vn vt nv [("@name", .pystr serial)]).2) := by
    simp [updateDeviceInList, isStrVal, dgetD, dget]
  rw [hone]

/-- `update_device_variable` on a devices list ending in the freshly
appended `{'@name': serial}` leaves the other entries alone and keeps
a device named `serial` in place (whether the variable write succeeds
or raises the pre-shared-key `ValueError`). -/
theorem update_device_variable_fresh (s : TS) (dfs : Fields) (dl : List PyVal)
    (serial vn t : String) (pv : PyVal)
    (hdv : s.devices = .pydict dfs)
    (hde : dget dfs "entry" = some (.pylist (dl ++ [.pydict [("@name", .pystr serial)]])))
    (hT : variable_types.contains t = true)
    (hdicts : dl.all isDict = true)
    (hnone : dl.all (fun d => !(isDeviceNamed d serial)) = true) :
    ∃ d' : Fields, dget d' "@name" = some (.pystr serial) ∧
      (update_device_variable s serial vn t pv).1.devices
        = .pydict (dset dfs "entry" (.pylist (dl ++ [.pydict d']))) := by
  obtain ⟨d', hname, hlist⟩ := updateDeviceInList_fresh serial vn t
    (if t == "pre-shared-key" && pv.isStr then PyVal.pydict [("value", pv)] else pv)
    dl hdicts hnone
  refine ⟨d', hname, ?_⟩
  obtain ⟨E2, hE2⟩ := ensureDC_wf s dfs hdv (by simp [hasKey, hde])
  have hnotc : ¬((!(variable_types.contains t)) = true) := by
    rw [hT]; exact fun hx => Bool.false_ne_true (by simp at hx)
  set res := update_device_variable s serial vn t pv with hres
  unfold update_device_variable at hres
  rw [if_neg hnotc] at hres
  rw [hE2] at hres
  dsimp only at hres
  rw [hdv] at hres
  dsimp only at hres
  rw [hde] at hres
  dsimp only at hres
  rw [hlist] at hres
  split at hres
  · rw [hres]
  · rw [hres]
  · rw [hres]

/-- C1: on a template stack whose variable block and devices container
pass their validators, `set_device_variable_value(serial, name, value)`
raises `ValueError` (leaving the state unchanged) when `name` has no
discoverable type; and when the type is discoverable,
`create_device_if_missing=True`, and no device entry with
`@name == serial` exists, a new device entry with that name is added to
`devices['entry']` (the entry list grows by exactly one and now
contains an entry named `serial`). -/
theorem C1_set_device_variable_value (s : TS) (serial vn : String) (value : PyVal)
    (Hvar : validate_variable_structure s.varBlock = true)
    (Hdev : validate_devices_structure s.devices = true) :
    (inferVariableType s vn = .ok none →
      set_device_variable_value s serial vn value true
        = (s, .error ("ValueError: Variable definition " ++ vn ++
            " not found for template stack " ++ s.name ++
            "; define it at the stack level or ensure another device has it assigned."))) ∧
    (∀ (t : String) (dbf : Fields) (dl : List PyVal),
      inferVariableType s vn = .ok (some t) →
      s.devices = .pydict dbf →
      dget dbf "entry" = some (.pylist dl) →
      dl.all (fun d => !(isDeviceNamed d serial)) = true →
      (devEntries (set_device_variable_value s serial vn value true).1.devices).length
          = dl.length + 1 ∧
      (devEntries (set_device_variable_value s serial vn value true).1.devices).any
          (fun d => isDeviceNamed d serial) = true) := by
  constructor
  · intro hinf
    simp only [set_device_variable_value, hinf]
  · intro t dbf dl hinf hdv hde hnone
    have hT : variable_types.contains t = true := infer_tag_allowed s vn t Hvar Hdev hinf
    have ht : (t == "") = false := contains_ne_empty t hT
    have hdval : dl.all validDeviceItem = true := by
      rw [hdv] at Hdev
      simpa only [validate_devices_structure, hde] using Hdev
    have hdicts : dl.all isDict = true := all_isDict_of_validDevice dl hdval
    have hany : dl.any (fun d => isDeviceNamed d serial) = false := by
      rw [← Bool.not_eq_true, List.any_eq_true]
      rintro ⟨d, hdmem, hnamed⟩
      have hthis := (List.all_eq_true.mp hnone) d hdmem
      rw [hnamed] at hthis
      simp at hthis
    have hchk : deviceExistsChk s.devices serial = .ok false := by
      rw [hdv, deviceExistsChk_eq dbf dl serial hde, hany]
    obtain ⟨E1, hadd⟩ := add_device_wf s dbf dl serial hdv hde
    have hstep : set_device_variable_value s serial vn value true
        = update_device_variable
            { s with
              devices := .pydict (dset dbf "entry"
                (.pylist (dl ++ [.pydict [("@name", .pystr serial)]])))
              entry := E1 }
            serial vn t
            (if t == "pre-shared-key" && value.isStr then
              PyVal.pydict [("value", value)] else value) := by
      simp only [set_device_variable_value, hinf, ht, Bool.false_eq_true, if_false, hchk,
        Bool.not_false, Bool.and_true, if_true, hadd]
    rw [hstep]
    obtain ⟨d', hname, hdevices⟩ := update_device_variable_fresh
      { s with
        devices := .pydict (dset dbf "entry"
          (.pylist (dl ++ [.pydict [("@name", .pystr serial)]])))
        entry := E1 }
      (dset dbf "entry" (.pylist (dl ++ [.pydict [("@name", .pystr serial)]])))
      dl serial vn t
      (if t == "pre-shared-key" && value.isStr then PyVal.pydict [("value", value)] else value)
      rfl (dget_dset_self ..) hT hdicts hnone
    rw [hdevices]
    constructor
    · simp [devEntries, dset_dset, dget_dset_self]
    · simp [devEntries, dset_dset, dget_dset_self, List.any_append, isDeviceNamed, dgetD, hname,
        isStrVal]

/-- C1 witness: `$missing` is undefined (ValueError, state unchanged);
`$ip` is defined and device `0123` absent (device added). -/
theorem C1_witness :
    ((set_device_variable_value
      { name := "stk", templates := .pydict [("member", .pylist [])],
        devices := .pydict [("entry", .pylist [.pydict [("@name", .pystr "fw0")]])],
        varBlock := .pydict [("entry", .pylist [.pydict [("@name", .pystr "$ip"),
          ("type", .pydict [("ip-netmask", .pystr "0.0.0.0/0")])]])],
        entry := [] } "0123" "$missing" (.pystr "10.0.0.1/32") true)
      = ({ name := "stk", templates := .pydict [("member", .pylist [])],
           devices := .pydict [("entry", .pylist [.pydict [("@name", .pystr "fw0")]])],
           varBlock := .pydict [("entry", .pylist [.pydict [("@name", .pystr "$ip"),
             ("type", .pydict [("ip-netmask", .pystr "0.0.0.0/0")])]])],
           entry := [] },
         .error ("ValueError: Variable definition " ++ "$missing" ++
            " not found for template stack " ++ "stk" ++
            "; define it at the stack level or ensure another device has it assigned."))) ∧
    ((devEntries (set_device_variable_value
      { name := "stk", templates := .pydict [("member", .pylist [])],
        devices := .pydict [("entry", .pylist [.pydict [("@name", .pystr "fw0")]])],
        varBlock := .pydict [("entry", .pylist [.pydict [("@name", .pystr "$ip"),
          ("type", .pydict [("ip-netmask", .pystr "0.0.0.0/0")])]])],
        entry := [] } "0123" "$ip" (.pystr "10.0.0.1/32") true).1.devices).length
      = ([PyVal.pydict [("@name", .pystr "fw0")]] : List PyVal).length + 1) ∧
    ((devEntries (set_device_variable_value
      { name := "stk", templates := .pydict [("member", .pylist [])],
        devices := .pydict [("entry", .pylist [.pydict [("@name", .pystr "fw0")]])],
        varBlock := .pydict [("entry", .pylist [.pydict [("@name", .pystr "$ip"),
          ("type", .pydict [("ip-netmask", .pystr "0.0.0.0/0")])]])],
        entry := [] } "0123" "$ip" (.pystr "10.0.0.1/32") true).1.devices).any
        (fun d => isDeviceNamed d "0123") = true) :=
  ⟨(C1_set_device_variable_value _ "0123" "$missing" (.pystr "10.0.0.1/32")
      (by decide) (by decide)).1 rfl,
   ((C1_set_device_variable_value
      { name := "stk", templates := .pydict [("member", .pylist [])],
        devices := .pydict [("entry", .pylist [.pydict [("@name", .pystr "fw0")]])],
        varBlock := .pydict [("entry", .pylist [.pydict [("@name", .pystr "$ip"),
          ("type", .pydict [("ip-netmask", .pystr "0.0.0.0/0")])]])],
        entry := [] } "0123" "$ip" (.pystr "10.0.0.1/32")
      (by decide) (by decide)).2 "ip-netmask"
      [("entry", .pylist [.pydict [("@name", .pystr "fw0")]])]
      [.pydict [("@name", .pystr "fw0")]] rfl rfl rfl (by decide)).1,
   ((C1_set_device_variable_value
      { name := "stk", templates := .pydict [("member", .pylist [])],
        devices := .pydict [("entry", .pylist [.pydict [("@name", .pystr "fw0")]])],
        varBlock := .pydict [("entry", .pylist [.pydict [("@name", .pystr "$ip"),
          ("type", .pydict [("ip-netmask", .pystr "0.0.0.0/0")])]])],
        entry := [] } "0123" "$ip" (.pystr "10.0.0.1/32")
      (by decide) (by decide)).2 "ip-netmask"
      [("entry", .pylist [.pydict [("@name", .pystr "fw0")]])]
      [.pydict [("@name", .pystr "fw0")]] rfl rfl rfl (by decide)).2⟩
